import Mathlib

/-!
# Verification of the presetify adjustment core

Shallow embedding of `src/presetify/models.py`, `metadata.py`, `xmp.py`
and `widgets.py` (the tone-curve widget).  Python strings are modelled as
`List Char`; the dynamically-typed tag values that ExifTool delivers and
that the importer stores are modelled by `PyVal` (int / float / str /
flat list).  Python `float` is modelled by `ℚ` (all the formatting and
coordinate computations of the core keep well within the range where
IEEE-754 doubles behave like exact rationals, see the comments at the
relevant definitions).  Python `int()` truncation toward zero is
`Int.tdiv`.
-/

namespace Presetify

/-- Python scalar values as delivered by the metadata tool or stored into
the (dynamically typed) dataclass fields: `int`, `float` (as `ℚ`) or
`str` (as `List Char`). -/
inductive PyAtom where
  | aint : Int → PyAtom
  | afloat : ℚ → PyAtom
  | astr : List Char → PyAtom
deriving DecidableEq, Repr

/-- A tag value: a scalar, or a flat list of scalars (ExifTool returns a
list of item strings for an XMP `Seq`). -/
inductive PyVal where
  | atom : PyAtom → PyVal
  | vlist : List PyAtom → PyVal
deriving DecidableEq, Repr

/-- Shorthand for an int-valued tag value. -/
def PyVal.int (n : Int) : PyVal := .atom (.aint n)

/-- Shorthand for a float-valued tag value. -/
def PyVal.float (q : ℚ) : PyVal := .atom (.afloat q)

/-- Shorthand for a string-valued tag value. -/
def PyVal.str (s : List Char) : PyVal := .atom (.astr s)

/-! ## Python string primitives -/

/-- The whitespace characters stripped by Python's `str.strip()` (ASCII
subset; the strings handled by the core are ASCII). -/
def isPySpace (c : Char) : Bool :=
  c = ' ' || c = '\t' || c = '\n' || c = '\r' || c = '\x0b' || c = '\x0c'

/-- Python `str.strip()`: remove leading and trailing whitespace. -/
def pyStrip (cs : List Char) : List Char :=
  ((cs.dropWhile isPySpace).reverse.dropWhile isPySpace).reverse

/-- Helper for `splitOnComma`: accumulates the current token (reversed). -/
def splitCommaAux : List Char → List Char → List (List Char)
  | [], cur => [cur.reverse]
  | c :: rest, cur =>
      if c = ',' then cur.reverse :: splitCommaAux rest []
      else splitCommaAux rest (c :: cur)

/-- Python `s.split(",")`: split on every comma, never collapsing empty
tokens; the empty string yields one empty token. -/
def splitOnComma (cs : List Char) : List (List Char) :=
  splitCommaAux cs []

/-- Digit-run parser used by `pyInt`: consumes decimal digits, allowing a
single underscore between two digits (Python 3 literal grouping). -/
def parseDigitsAux (acc : Nat) : List Char → Option Nat
  | [] => some acc
  | c :: rest =>
      if c.isDigit then parseDigitsAux (acc * 10 + (c.toNat - 48)) rest
      else if c = '_' then
        match rest with
        | d :: rest2 =>
            if d.isDigit then parseDigitsAux (acc * 10 + (d.toNat - 48)) rest2
            else none
        | [] => none
      else none

/-- A nonempty digit run (must start with a digit, not an underscore). -/
def pyIntDigits (cs : List Char) : Option Nat :=
  match cs with
  | c :: _ => if c.isDigit then parseDigitsAux 0 cs else none
  | [] => none

/-- Python `int(s)` on a decimal string: strip whitespace, optional sign,
nonempty digit run.  Returns `none` where Python raises `ValueError`. -/
def pyInt (s : List Char) : Option Int :=
  match pyStrip s with
  | '+' :: rest => (pyIntDigits rest).map Int.ofNat
  | '-' :: rest => (pyIntDigits rest).map (fun n => -Int.ofNat n)
  | cs => (pyIntDigits cs).map Int.ofNat

/-- Decimal rendering of a natural number, accumulator form.  The first
argument is fuel (any value above the digit count behaves the same, see
`natToCharsGo_fuel`); structural recursion on it keeps the definition
kernel-reducible. -/
def natToCharsGo : Nat → Nat → List Char → List Char
  | 0, _, acc => acc
  | fuel + 1, n, acc =>
      let acc2 := Nat.digitChar (n % 10) :: acc
      if n < 10 then acc2 else natToCharsGo fuel (n / 10) acc2

/-- Decimal rendering of a natural number (Python `str(n)` for `n ≥ 0`). -/
def natToChars (n : Nat) : List Char := natToCharsGo (n + 1) n []

/-- Python `str(i)` for an `int`: plain decimal digits, `-` sign only for
negative values, never a forced `+`. -/
def intToChars (i : Int) : List Char :=
  if i < 0 then '-' :: natToChars i.natAbs else natToChars i.natAbs

/-! ## Data model (`models.py`) -/

/-- `ToneCurve.points`: an ordered list of `(input, output)` integer
pairs.  The dataclass is a pure wrapper around this list; `none` at use
sites stands for Python `None`, `some []` for `ToneCurve(points=[])`. -/
abbrev ToneCurve := List (Int × Int)

/-- `ToneCurve.__str__`: `", ".join(f"{x}, {y}" for x, y in points)`,
the empty curve rendering as the empty string. -/
def toneCurveStr (points : ToneCurve) : List Char :=
  match points with
  | [] => []
  | [p] => intToChars p.1 ++ ',' :: ' ' :: intToChars p.2
  | p :: rest =>
      (intToChars p.1 ++ ',' :: ' ' :: intToChars p.2) ++ ',' :: ' ' :: toneCurveStr rest

/-- `LightroomAdjustments`: one optional field per adjustment.  At
runtime Python does not enforce the annotated field types (the importer
stores whatever value ExifTool delivered), so every scalar field holds an
untyped `PyVal`.  `tone_curve_red/green/blue` are the attributes that
`extract` creates dynamically via `setattr` for the per-channel curve
tags.  The HSL dictionaries are insertion-ordered association lists. -/
structure LightroomAdjustments where
  exposure : Option PyVal := none
  contrast : Option PyVal := none
  highlights : Option PyVal := none
  shadows : Option PyVal := none
  whites : Option PyVal := none
  blacks : Option PyVal := none
  temperature : Option PyVal := none
  tint : Option PyVal := none
  vibrance : Option PyVal := none
  saturation : Option PyVal := none
  clarity : Option PyVal := none
  dehaze : Option PyVal := none
  texture : Option PyVal := none
  tone_curve : Option ToneCurve := none
  sharpness : Option PyVal := none
  luminance_noise_reduction : Option PyVal := none
  color_noise_reduction : Option PyVal := none
  vignette_amount : Option PyVal := none
  grain_amount : Option PyVal := none
  tone_curve_red : Option PyVal := none
  tone_curve_green : Option PyVal := none
  tone_curve_blue : Option PyVal := none
  hue_adjustments : List (String × PyVal) := []
  saturation_adjustments : List (String × PyVal) := []
  luminance_adjustments : List (String × PyVal) := []
  source_file : Option String := none
deriving DecidableEq, Repr

/-- `LightroomAdjustments.has_adjustments`:
`any(adj is not None for adj in basic_adjustments) or bool(self.tone_curve)`.
`ToneCurve` is a dataclass with neither `__bool__` nor `__len__`, so
`bool(self.tone_curve)` is `True` exactly when the field is not `None`,
even for an empty curve — hence `Option.isSome`, not a nonemptiness
test. -/
def has_adjustments (a : LightroomAdjustments) : Bool :=
  (a.exposure.isSome || a.contrast.isSome || a.highlights.isSome ||
   a.shadows.isSome || a.whites.isSome || a.blacks.isSome ||
   a.temperature.isSome || a.tint.isSome || a.vibrance.isSome ||
   a.saturation.isSome || a.clarity.isSome || a.dehaze.isSome ||
   a.texture.isSome || a.sharpness.isSome) || a.tone_curve.isSome

/-! ## Tone curve codec (`metadata.py`, `MetadataExtractor._parse_tone_curve`) -/

/-- Python `int(f)` on a float: truncation toward zero, modelled on `ℚ`. -/
def ratTrunc (q : ℚ) : Int := q.num.tdiv q.den

/-- Python `int(v)` applied to a list element of the curve data:
ints pass through, floats truncate, strings go through decimal parsing;
anything else raises (`TypeError`), i.e. `none`. -/
def pyIntOfAtom : PyAtom → Option Int
  | .aint n => some n
  | .afloat q => some (ratTrunc q)
  | .astr s => pyInt s

/-- `for i in range(0, len(values), 2): if i + 1 < len(values): append
(values[i], values[i+1])` — consecutive pairing, dropping a trailing
unpaired value. -/
def pairUp : List Int → List (Int × Int)
  | a :: b :: rest => (a, b) :: pairUp rest
  | _ => []

/-- Python truthiness of a tag value (`if not curve_data`). -/
def isFalsyVal (v : PyVal) : Bool :=
  match v with
  | .atom (.aint n) => n = 0
  | .atom (.afloat q) => q = 0
  | .atom (.astr s) => s.isEmpty
  | .vlist l => l.isEmpty

/-- `MetadataExtractor._parse_tone_curve`.  `none` input is Python
`None`; falsy input returns `None`; a string is split on commas and each
token parsed with `int(v.strip())`; a list is parsed element-wise with
`int(v)`; any parse failure (`ValueError`/`TypeError`) or a non-str,
non-list value returns `None`; the pairs are formed by `pairUp` and an
empty pair list returns `None`. -/
def parse_tone_curve (curve_data : Option PyVal) : Option ToneCurve :=
  match curve_data with
  | none => none
  | some v =>
      if isFalsyVal v then none
      else
        match v with
        | .atom (.astr s) =>
            match (splitOnComma s).mapM (fun t => pyInt (pyStrip t)) with
            | some values =>
                let points := pairUp values
                if points.isEmpty then none else some points
            | none => none
        | .vlist l =>
            match l.mapM pyIntOfAtom with
            | some values =>
                let points := pairUp values
                if points.isEmpty then none else some points
            | none => none
        | _ => none

/-! ## Metadata importer (`metadata.py`, `MetadataExtractor`) -/

/-- `MetadataExtractor.LR_TAGS`, in source order. -/
def LR_TAGS : List (String × String) := [
  ("XMP:Exposure2012", "exposure"),
  ("XMP:Contrast2012", "contrast"),
  ("XMP:Highlights2012", "highlights"),
  ("XMP:Shadows2012", "shadows"),
  ("XMP:Whites2012", "whites"),
  ("XMP:Blacks2012", "blacks"),
  ("XMP:Temperature", "temperature"),
  ("XMP:Tint", "tint"),
  ("XMP:Vibrance", "vibrance"),
  ("XMP:Saturation", "saturation"),
  ("XMP:Clarity2012", "clarity"),
  ("XMP:Dehaze", "dehaze"),
  ("XMP:Texture", "texture"),
  ("XMP:Sharpness", "sharpness"),
  ("XMP:LuminanceSmoothing", "luminance_noise_reduction"),
  ("XMP:ColorNoiseReduction", "color_noise_reduction"),
  ("XMP:PostCropVignetteAmount", "vignette_amount"),
  ("XMP:GrainAmount", "grain_amount"),
  ("XMP:ToneCurvePV2012", "tone_curve"),
  ("XMP:ToneCurvePV2012Red", "tone_curve_red"),
  ("XMP:ToneCurvePV2012Green", "tone_curve_green"),
  ("XMP:ToneCurvePV2012Blue", "tone_curve_blue")]

/-- Dictionary lookup (`tag in data` / `data[tag]`); the tag mapping is
an association list with unique keys. -/
def lookupD (data : List (String × PyVal)) (k : String) : Option PyVal :=
  match data with
  | [] => none
  | (k2, v) :: rest => if k2 = k then some v else lookupD rest k

/-- `setattr(adjustments, attr_name, value)` for the attribute names
occurring in `LR_TAGS` (other than the specially-handled `tone_curve`). -/
def setField (a : LightroomAdjustments) (attr : String) (v : PyVal) :
    LightroomAdjustments :=
  match attr with
  | "exposure" => { a with exposure := some v }
  | "contrast" => { a with contrast := some v }
  | "highlights" => { a with highlights := some v }
  | "shadows" => { a with shadows := some v }
  | "whites" => { a with whites := some v }
  | "blacks" => { a with blacks := some v }
  | "temperature" => { a with temperature := some v }
  | "tint" => { a with tint := some v }
  | "vibrance" => { a with vibrance := some v }
  | "saturation" => { a with saturation := some v }
  | "clarity" => { a with clarity := some v }
  | "dehaze" => { a with dehaze := some v }
  | "texture" => { a with texture := some v }
  | "sharpness" => { a with sharpness := some v }
  | "luminance_noise_reduction" => { a with luminance_noise_reduction := some v }
  | "color_noise_reduction" => { a with color_noise_reduction := some v }
  | "vignette_amount" => { a with vignette_amount := some v }
  | "grain_amount" => { a with grain_amount := some v }
  | "tone_curve_red" => { a with tone_curve_red := some v }
  | "tone_curve_green" => { a with tone_curve_green := some v }
  | "tone_curve_blue" => { a with tone_curve_blue := some v }
  | _ => a

/-- One iteration of the `for xmp_tag, attr_name in self.LR_TAGS.items()`
loop: if the tag is present, the tone curve is parsed specially and every
other attribute receives the tag's value verbatim. -/
def stepTag (data : List (String × PyVal)) (a : LightroomAdjustments)
    (p : String × String) : LightroomAdjustments :=
  match lookupD data p.1 with
  | some v =>
      if p.2 = "tone_curve" then { a with tone_curve := parse_tone_curve (some v) }
      else setField a p.2 v
  | none => a

/-- The whole scalar-tag loop of `extract`. -/
def applyTags (data : List (String × PyVal)) (tags : List (String × String))
    (a : LightroomAdjustments) : LightroomAdjustments :=
  tags.foldl (stepTag data) a

/-- The eight fixed color bands, in source order. -/
def hslColors : List String :=
  ["Red", "Orange", "Yellow", "Green", "Aqua", "Blue", "Purple", "Magenta"]

/-- Python `d[k] = v` on an insertion-ordered dict. -/
def dictInsert (l : List (String × PyVal)) (k : String) (v : PyVal) :
    List (String × PyVal) :=
  match l with
  | [] => [(k, v)]
  | (k2, w) :: rest =>
      if k2 = k then (k2, v) :: rest else (k2, w) :: dictInsert rest k v

/-- One color of `MetadataExtractor._extract_hsl_adjustments`. -/
def hslStep (data : List (String × PyVal)) (a : LightroomAdjustments)
    (color : String) : LightroomAdjustments :=
  let a1 :=
    match lookupD data ("XMP:HueAdjustment" ++ color) with
    | some v => { a with hue_adjustments := dictInsert a.hue_adjustments color.toLower v }
    | none => a
  let a2 :=
    match lookupD data ("XMP:SaturationAdjustment" ++ color) with
    | some v => { a1 with saturation_adjustments := dictInsert a1.saturation_adjustments color.toLower v }
    | none => a1
  match lookupD data ("XMP:LuminanceAdjustment" ++ color) with
  | some v => { a2 with luminance_adjustments := dictInsert a2.luminance_adjustments color.toLower v }
  | none => a2

/-- `MetadataExtractor._extract_hsl_adjustments`. -/
def extract_hsl_adjustments (data : List (String × PyVal))
    (a : LightroomAdjustments) : LightroomAdjustments :=
  hslColors.foldl (hslStep data) a

/-- The `LightroomAdjustments(source_file=str(image_path))` value that
`extract` constructs before consulting the tool. -/
def baseAdjustments (image_path : String) : LightroomAdjustments :=
  { source_file := some image_path }

/-- `MetadataExtractor.extract`.  The external `ExifToolHelper` call is a
parameter: `.error` models the tool raising (caught by the
`except Exception` clause, which only logs), `.ok []`/`.ok l` model the
returned metadata list (`if not metadata: return adjustments`, then
`data = metadata[0]`).  Everything after the call is total, so the
`except` clause is unreachable from the processing itself. -/
def extract (image_path : String)
    (toolResult : Except Unit (List (List (String × PyVal)))) :
    LightroomAdjustments :=
  let adjustments := baseAdjustments image_path
  match toolResult with
  | .error _ => adjustments
  | .ok [] => adjustments
  | .ok (data :: _) => extract_hsl_adjustments data (applyTags data LR_TAGS adjustments)

/-! ## Preset exporter (`xmp.py`, `XMPGenerator`) -/

/-- Round-half-to-even, the rounding used when a float is rendered with
`%.2f`. -/
def roundHalfEven (q : ℚ) : Int :=
  let f := ⌊q⌋
  if q - f < 1 / 2 then f
  else if q - f > 1 / 2 then f + 1
  else if f % 2 = 0 then f else f + 1

/-- Exactly two decimal digits for the fractional part (`m < 100`). -/
def twoDigitChars (m : Nat) : List Char :=
  [Nat.digitChar (m / 10 % 10), Nat.digitChar (m % 10)]

/-- `f"{value:+.2f}" if value >= 0 else f"{value:.2f}"` from
`_add_adjustments_to_attribs`: both branches render a sign followed by
the absolute value with exactly two decimal digits ('-0.00' for a tiny
negative value, '+0.00' for zero). -/
def pyFormatFloat2 (q : ℚ) : List Char :=
  let n := roundHalfEven (q * 100)
  let a := n.natAbs
  let body := natToChars (a / 100) ++ '.' :: twoDigitChars (a % 100)
  if 0 ≤ q then '+' :: body else '-' :: body

/-- Python `str(v)` on a scalar.  The float case is only reachable where
the exporter did not already take the `isinstance(value, float)` branch,
i.e. never for an attribute value; rendered like the formatted branch as
a placeholder. -/
def pyStrAtom : PyAtom → List Char
  | .aint n => intToChars n
  | .astr s => s
  | .afloat q => pyFormatFloat2 q

/-- Python `repr` of a list element (used by `str` on a list). -/
def pyReprAtom : PyAtom → List Char
  | .aint n => intToChars n
  | .astr s => '\'' :: (s ++ ['\''])
  | .afloat q => pyFormatFloat2 q

/-- Comma-space-joined list body. -/
def listReprBody : List PyAtom → List Char
  | [] => []
  | [a] => pyReprAtom a
  | a :: rest => pyReprAtom a ++ ',' :: ' ' :: listReprBody rest

/-- Python `str(v)` on a tag value. -/
def pyStrVal (v : PyVal) : List Char :=
  match v with
  | .atom a => pyStrAtom a
  | .vlist l => '[' :: (listReprBody l ++ [']'])

/-- The attribute-value rendering of `_add_adjustments_to_attribs`:
floats take the sign-and-two-decimals branch, everything else `str`. -/
def formatValue (v : PyVal) : List Char :=
  match v with
  | .atom (.afloat q) => pyFormatFloat2 q
  | v2 => pyStrVal v2

/-- One optional attribute: present exactly when the field is non-null.
Attribute keys are kept as the bare tag names; the fixed `crs` namespace
that prefixes every one of them in the XML carries no per-field
information. -/
def attribEntry (key : String) (o : Option PyVal) : List (String × List Char) :=
  match o with
  | some v => [(key, formatValue v)]
  | none => []

/-- One optional HSL attribute (`str(value)`, no float branch). -/
def hslAttribEntry (key : String) (o : Option PyVal) : List (String × List Char) :=
  match o with
  | some v => [(key, pyStrVal v)]
  | none => []

/-- `XMPGenerator._add_hsl_adjustments`: per band, the hue, saturation
and luminance attributes, present if the lower-cased band key is in the
corresponding dictionary. -/
def add_hsl_adjustments (a : LightroomAdjustments) : List (String × List Char) :=
  hslColors.flatMap (fun c =>
    hslAttribEntry ("HueAdjustment" ++ c) (lookupD a.hue_adjustments c.toLower) ++
    hslAttribEntry ("SaturationAdjustment" ++ c) (lookupD a.saturation_adjustments c.toLower) ++
    hslAttribEntry ("LuminanceAdjustment" ++ c) (lookupD a.luminance_adjustments c.toLower))

/-- `XMPGenerator._add_adjustments_to_attribs`: the eighteen scalar
attributes in the `mappings` dict order (non-null fields only), followed
by the HSL attributes. -/
def add_adjustments_to_attribs (a : LightroomAdjustments) : List (String × List Char) :=
  attribEntry "Exposure2012" a.exposure ++
  attribEntry "Contrast2012" a.contrast ++
  attribEntry "Highlights2012" a.highlights ++
  attribEntry "Shadows2012" a.shadows ++
  attribEntry "Whites2012" a.whites ++
  attribEntry "Blacks2012" a.blacks ++
  attribEntry "Temperature" a.temperature ++
  attribEntry "Tint" a.tint ++
  attribEntry "Vibrance" a.vibrance ++
  attribEntry "Saturation" a.saturation ++
  attribEntry "Clarity2012" a.clarity ++
  attribEntry "Dehaze" a.dehaze ++
  attribEntry "Texture" a.texture ++
  attribEntry "Sharpness" a.sharpness ++
  attribEntry "LuminanceSmoothing" a.luminance_noise_reduction ++
  attribEntry "ColorNoiseReduction" a.color_noise_reduction ++
  attribEntry "PostCropVignetteAmount" a.vignette_amount ++
  attribEntry "GrainAmount" a.grain_amount ++
  add_hsl_adjustments a

/-- `XMPGenerator._add_tone_curve_element`: one `rdf:li` per point, each
with text `f"{x}, {y}"`. -/
def toneCurveItems (points : ToneCurve) : List PyAtom :=
  points.map (fun p => .astr (intToChars p.1 ++ ',' :: ' ' :: intToChars p.2))

/-- The flat tag-to-value mapping that the exporter's attribute/element
construction produces, keyed the way `MetadataExtractor.LR_TAGS` expects
(ExifTool reports the `crs` attributes and elements as flat `XMP:<Name>`
tags; an XMP `Seq` element is reported as the list of its `li` item
texts).  The tone-curve element is emitted exactly when
`adjustments.tone_curve and adjustments.tone_curve.points` — the field
is present (a dataclass is always truthy) and the point list nonempty. -/
def exportedTagMapping (a : LightroomAdjustments) : List (String × PyVal) :=
  ((add_adjustments_to_attribs a).map (fun p => ("XMP:" ++ p.1, PyVal.str p.2))) ++
  (match a.tone_curve with
   | some (p :: ps) => [("XMP:ToneCurvePV2012", PyVal.vlist (toneCurveItems (p :: ps)))]
   | _ => [])

/-! ## Tone curve widget (`widgets.py`, `ToneCurveWidget`) -/

/-- The 20x60 character grid, modelled as a total function; cells outside
the rectangle `[0,20) x [0,60)` do not exist in the Python list-of-lists
and are frozen at `' '` here, so "the algorithm never writes outside the
grid" is expressed as those cells staying `' '`. -/
abbrev Grid := Int → Int → Char

/-- The initial grid of `render`: axes on the left column and bottom row,
a corner glyph, blanks elsewhere. -/
def initGrid : Grid := fun y x =>
  if 0 ≤ y ∧ y < 20 ∧ 0 ≤ x ∧ x < 60 then
    if y = 19 ∧ x = 0 then '└'
    else if x = 0 then '│'
    else if y = 19 then '─'
    else ' '
  else ' '

/-- The body of the `while True` loop of `_draw_line` that writes a cell:
`if 0 <= y1 < height and 0 <= x1 < width: if grid[y1][x1] in (" ", "─"):
grid[y1][x1] = "●"`. -/
def plot (g : Grid) (x y : Int) : Grid :=
  if 0 ≤ y ∧ y < 20 ∧ 0 ≤ x ∧ x < 60 ∧ (g y x = ' ' ∨ g y x = '─') then
    fun y2 x2 => if y2 = y ∧ x2 = x then '●' else g y2 x2
  else g

/-- The `while True` loop of `ToneCurveWidget._draw_line`, fuelled: the
Python loop is unbounded, so the embedding spends one unit of fuel per
iteration and returns `none` on exhaustion; `draw_line` supplies
`dx + dy + 1` units and the termination theorem shows that this is
always enough. -/
def drawLineGo (x2 y2 sx sy dx dy : Int) :
    Nat → Grid → Int → Int → Int → Option Grid
  | 0, _, _, _, _ => none
  | fuel + 1, g, x1, y1, err =>
      let g2 := plot g x1 y1
      if x1 = x2 ∧ y1 = y2 then some g2
      else
        let e2 := 2 * err
        let x1n := if e2 > -dy then x1 + sx else x1
        let err1 := if e2 > -dy then err - dy else err
        let y1n := if e2 < dx then y1 + sy else y1
        let err2 := if e2 < dx then err1 + dx else err1
        drawLineGo x2 y2 sx sy dx dy fuel g2 x1n y1n err2

/-- `ToneCurveWidget._draw_line`: Bresenham setup plus the fuelled loop. -/
def draw_line (g : Grid) (x1 y1 x2 y2 : Int) : Option Grid :=
  let dx := |x2 - x1|
  let dy := |y2 - y1|
  let sx : Int := if x1 < x2 then 1 else -1
  let sy : Int := if y1 < y2 then 1 else -1
  drawLineGo x2 y2 sx sy dx dy ((dx + dy).toNat + 1) g x1 y1 (dx - dy)

/-- `gx = int((x / 255) * (width - 2)) + 1` with `width = 60`: Python
`int()` on the float truncates toward zero; for every coordinate of
magnitude below 2^40 the double computation never crosses an integer
boundary, so the exact-rational truncation `Int.tdiv` is faithful on
that domain.  For astronomically large coordinates the Python pipeline
instead raises OverflowError (`x / 255` itself for
`|x| ≥ 255*(2^1024 - 2^970)`, and `int()` of an infinite product before
that, e.g. at `x = 10^309`); that error path is not modelled by this
total function, so every theorem about rendering out-of-range points
restricts coordinates to magnitude at most 2^40. -/
def gridX (x : Int) : Int := Int.tdiv (x * 58) 255 + 1

/-- `gy = height - 2 - int((y / 255) * (height - 2))` with `height = 20`;
the same faithful domain (magnitude at most 2^40) and the same dropped
OverflowError path as `gridX`. -/
def gridY (y : Int) : Int := 18 - Int.tdiv (y * 18) 255

/-- The plotting loop of `render`, parametric in the coordinate mapping
so that the implemented mapping can be compared with the spec's
formulas. -/
def drawSegments (fx fy : Int → Int) :
    Grid → List ((Int × Int) × (Int × Int)) → Option Grid
  | g, [] => some g
  | g, (p, q) :: rest =>
      match draw_line g (fx p.1) (fy p.2) (fx q.1) (fy q.2) with
      | some g2 => drawSegments fx fy g2 rest
      | none => none

/-- `for i in range(len(points) - 1): ... points[i], points[i + 1]`. -/
def consecutivePairs (points : List (Int × Int)) :
    List ((Int × Int) × (Int × Int)) :=
  points.zip points.tail

/-- Result of `ToneCurveWidget.render`: either the fixed
"No tone curve adjustments" placeholder text or the drawn grid. -/
inductive RenderOut where
  | placeholder
  | grid : Grid → RenderOut

/-- `ToneCurveWidget.render` with a parametric coordinate mapping. -/
def renderWith (fx fy : Int → Int) (tone_curve : Option ToneCurve) :
    Option RenderOut :=
  match tone_curve with
  | none => some .placeholder
  | some [] => some .placeholder
  | some points => (drawSegments fx fy initGrid (consecutivePairs points)).map .grid

/-- `ToneCurveWidget.render`: placeholder for an absent or empty curve
(`if not self.tone_curve or not self.tone_curve.points`), otherwise the
grid drawn with the implemented coordinate mapping. -/
def render (tone_curve : Option ToneCurve) : Option RenderOut :=
  renderWith gridX gridY tone_curve

/-- Modelled from the spec: the coordinate mapping as the claim states
it, `gx = round(x/255 * (width-2)) + 1`, with true rounding instead of
the implemented truncation. -/
def gridXround (x : Int) : Int := round ((x : ℚ) / 255 * 58) + 1

/-- Modelled from the spec: `gy = (height-2) - round(y/255 * (height-2))`. -/
def gridYround (y : Int) : Int := 18 - round ((y : ℚ) / 255 * 18)

/-- Modelled from the spec: `render` as the round-based claim describes
it. -/
def renderRound (tone_curve : Option ToneCurve) : Option RenderOut :=
  renderWith gridXround gridYround tone_curve

/-- Clamp `v` into `[lo, hi]`. -/
def clampI (lo hi v : Int) : Int := max lo (min hi v)

/-- Modelled from the spec: out-of-range coordinates "clamped to the grid
bounds before drawing", x into `[0, 59]`. -/
def gridXclamped (x : Int) : Int := clampI 0 59 (gridX x)

/-- Modelled from the spec: y clamped into `[0, 19]`. -/
def gridYclamped (y : Int) : Int := clampI 0 19 (gridY y)

/-- Modelled from the spec: `render` with endpoint coordinates clamped to
the grid bounds before the Bresenham drawing, as the claim describes. -/
def renderClamped (tone_curve : Option ToneCurve) : Option RenderOut :=
  renderWith gridXclamped gridYclamped tone_curve

/-- The implemented mapping written with a rational floor, the form used
by the amended coordinate claim (`Int.tdiv` agrees with the floor on
nonnegative coordinates). -/
def gridXfloor (x : Int) : Int := ⌊(x : ℚ) / 255 * 58⌋ + 1

/-- Floor form of the y mapping. -/
def gridYfloor (y : Int) : Int := 18 - ⌊(y : ℚ) / 255 * 18⌋

/-- `render` with the floor-form mapping. -/
def renderFloor (tone_curve : Option ToneCurve) : Option RenderOut :=
  renderWith gridXfloor gridYfloor tone_curve

/-! ## Lemmas: decimal rendering and parsing -/

lemma digitChar_isDigit (m : Nat) (h : m < 10) : (Nat.digitChar m).isDigit = true := by
  interval_cases m <;> rfl

lemma digitChar_toNat (m : Nat) (h : m < 10) : (Nat.digitChar m).toNat = 48 + m := by
  interval_cases m <;> rfl

lemma natToCharsGo_fuel :
    ∀ (n f1 f2 : Nat), n < f1 → n < f2 → ∀ acc,
      natToCharsGo f1 n acc = natToCharsGo f2 n acc := by
  intro n
  induction n using Nat.strong_induction_on with
  | _ n ih =>
    intro f1 f2 h1 h2 acc
    match f1, f2 with
    | fa + 1, fb + 1 =>
      rw [natToCharsGo, natToCharsGo]
      by_cases h : n < 10
      · simp [h]
      · simp only [h, if_false]
        have hd : n / 10 < n := Nat.div_lt_self (by omega) (by omega)
        exact ih (n / 10) hd fa fb (by omega) (by omega) _

lemma natToCharsGo_append (n : Nat) :
    ∀ (fuel : Nat), n < fuel → ∀ acc : List Char,
      natToCharsGo fuel n acc = natToCharsGo fuel n [] ++ acc := by
  induction n using Nat.strong_induction_on with
  | _ n ih =>
    intro fuel hf acc
    match fuel with
    | fa + 1 =>
      rw [natToCharsGo, natToCharsGo]
      by_cases h : n < 10
      · simp [h]
      · simp only [h, if_false]
        have hd : n / 10 < n := Nat.div_lt_self (by omega) (by omega)
        have hfa : n / 10 < fa := by omega
        rw [ih (n / 10) hd fa hfa (Nat.digitChar (n % 10) :: acc),
          ih (n / 10) hd fa hfa (Nat.digitChar (n % 10) :: [])]
        simp

lemma natToChars_eq_of_lt (n : Nat) (h : n < 10) :
    natToChars n = [Nat.digitChar (n % 10)] := by
  rw [natToChars, natToCharsGo]
  simp [h]

lemma natToChars_eq_of_ge (n : Nat) (h : ¬n < 10) :
    natToChars n = natToChars (n / 10) ++ [Nat.digitChar (n % 10)] := by
  rw [natToChars, natToCharsGo]
  simp only [h, if_false]
  have hd : n / 10 < n := Nat.div_lt_self (by omega) (by omega)
  rw [natToCharsGo_fuel (n / 10) n (n / 10 + 1) (by omega) (by omega),
    natToChars]
  exact natToCharsGo_append (n / 10) (n / 10 + 1) (by omega) [Nat.digitChar (n % 10)]

lemma natToChars_ne_nil (n : Nat) : natToChars n ≠ [] := by
  by_cases h : n < 10
  · rw [natToChars_eq_of_lt n h]; simp
  · rw [natToChars_eq_of_ge n h]; simp

lemma natToChars_digits (n : Nat) : ∀ c ∈ natToChars n, c.isDigit = true := by
  induction n using Nat.strong_induction_on with
  | _ n ih =>
    intro c hc
    by_cases h : n < 10
    · rw [natToChars_eq_of_lt n h] at hc
      simp at hc
      exact hc ▸ digitChar_isDigit _ (Nat.mod_lt _ (by omega))
    · rw [natToChars_eq_of_ge n h] at hc
      rcases List.mem_append.mp hc with h2 | h2
      · exact ih (n / 10) (Nat.div_lt_self (by omega) (by omega)) c h2
      · simp at h2
        exact h2 ▸ digitChar_isDigit _ (Nat.mod_lt _ (by omega))

/-- The numeric value accumulated by `parseDigitsAux` over a digit run. -/
def charsVal (acc : Nat) (cs : List Char) : Nat :=
  cs.foldl (fun a c => a * 10 + (c.toNat - 48)) acc

lemma charsVal_append (acc : Nat) (l1 l2 : List Char) :
    charsVal acc (l1 ++ l2) = charsVal (charsVal acc l1) l2 := by
  simp [charsVal, List.foldl_append]

lemma parseDigitsAux_of_digits (cs : List Char) :
    ∀ acc, (∀ c ∈ cs, c.isDigit = true) →
      parseDigitsAux acc cs = some (charsVal acc cs) := by
  induction cs with
  | nil => intro acc _; rfl
  | cons c rest ih =>
    intro acc h
    have hc : c.isDigit = true := h c (by simp)
    rw [parseDigitsAux.eq_def]
    simp only [hc, if_true]
    rw [ih _ (fun d hd => h d (by simp [hd]))]
    rfl

lemma charsVal_natToChars (n : Nat) : charsVal 0 (natToChars n) = n := by
  induction n using Nat.strong_induction_on with
  | _ n ih =>
    by_cases h : n < 10
    · rw [natToChars_eq_of_lt n h]
      simp [charsVal, digitChar_toNat _ (Nat.mod_lt _ (by omega))]
      omega
    · rw [natToChars_eq_of_ge n h, charsVal_append,
        ih (n / 10) (Nat.div_lt_self (by omega) (by omega))]
      simp [charsVal, digitChar_toNat _ (Nat.mod_lt _ (by omega))]
      omega

lemma pyIntDigits_natToChars (n : Nat) : pyIntDigits (natToChars n) = some n := by
  rcases hcs : natToChars n with _ | ⟨c, rest⟩
  · exact absurd hcs (natToChars_ne_nil n)
  · have hc : c.isDigit = true := natToChars_digits n c (by rw [hcs]; simp)
    rw [pyIntDigits]
    simp only [hc, if_true]
    rw [← hcs, parseDigitsAux_of_digits _ _ (natToChars_digits n), charsVal_natToChars]

lemma isDigit_false_of_isPySpace (c : Char) (h : isPySpace c = true) :
    c.isDigit = false := by
  simp only [isPySpace, Bool.or_eq_true, decide_eq_true_eq] at h
  rcases h with ((((h | h) | h) | h) | h) | h <;> subst h <;> rfl

lemma isPySpace_of_isDigit (c : Char) (h : c.isDigit = true) : isPySpace c = false := by
  by_contra h2
  have h3 : isPySpace c = true := by simpa using h2
  rw [isDigit_false_of_isPySpace c h3] at h
  exact Bool.false_ne_true h

lemma ne_comma_of_isDigit (c : Char) (h : c.isDigit = true) : c ≠ ',' := by
  intro h2; subst h2; simp at h

lemma ne_plus_of_isDigit (c : Char) (h : c.isDigit = true) : c ≠ '+' := by
  intro h2; subst h2; simp at h

lemma ne_minus_of_isDigit (c : Char) (h : c.isDigit = true) : c ≠ '-' := by
  intro h2; subst h2; simp at h

/-- Characters of `intToChars`: a digit or a leading minus. -/
lemma intToChars_chars (i : Int) :
    ∀ c ∈ intToChars i, c.isDigit = true ∨ c = '-' := by
  intro c hc
  rw [intToChars] at hc
  by_cases h : i < 0
  · simp only [h, if_true] at hc
    rcases List.mem_cons.mp hc with h2 | h2
    · right; exact h2
    · left; exact natToChars_digits _ c h2
  · simp only [h, if_false] at hc
    left; exact natToChars_digits _ c hc

lemma intToChars_no_space (i : Int) : ∀ c ∈ intToChars i, isPySpace c = false := by
  intro c hc
  rcases intToChars_chars i c hc with h | h
  · exact isPySpace_of_isDigit c h
  · subst h; rfl

lemma intToChars_no_comma (i : Int) : ∀ c ∈ intToChars i, c ≠ ',' := by
  intro c hc
  rcases intToChars_chars i c hc with h | h
  · exact ne_comma_of_isDigit c h
  · subst h; decide

lemma pyStrip_eq_self (cs : List Char) (h : ∀ c ∈ cs, isPySpace c = false) :
    pyStrip cs = cs := by
  have h1 : cs.dropWhile isPySpace = cs := by
    cases cs with
    | nil => rfl
    | cons c rest =>
      rw [List.dropWhile_cons]
      simp [h c (by simp)]
  rw [pyStrip, h1]
  have h2 : cs.reverse.dropWhile isPySpace = cs.reverse := by
    rcases hr : cs.reverse with _ | ⟨c, rest⟩
    · rfl
    · rw [List.dropWhile_cons]
      simp [h c (by rw [← List.mem_reverse, hr]; simp)]
  rw [h2, List.reverse_reverse]

lemma pyStrip_eq_self_of_ends (cs : List Char)
    (h1 : ∀ c, cs.head? = some c → isPySpace c = false)
    (h2 : ∀ c, cs.getLast? = some c → isPySpace c = false) :
    pyStrip cs = cs := by
  have hd : cs.dropWhile isPySpace = cs := by
    cases cs with
    | nil => rfl
    | cons c rest =>
      rw [List.dropWhile_cons]
      simp [h1 c rfl]
  rw [pyStrip, hd]
  have hrev : cs.reverse.dropWhile isPySpace = cs.reverse := by
    rcases hr : cs.reverse with _ | ⟨c, rest⟩
    · rfl
    · have hlast : cs.getLast? = some c := by
        rw [← List.head?_reverse, hr]; rfl
      rw [List.dropWhile_cons]
      simp [h2 c hlast]
  rw [hrev, List.reverse_reverse]

lemma pyStrip_ws_front (u cs : List Char) (h : ∀ c ∈ u, isPySpace c = true) :
    pyStrip (u ++ cs) = pyStrip cs := by
  have h1 : (u ++ cs).dropWhile isPySpace = cs.dropWhile isPySpace := by
    induction u with
    | nil => rfl
    | cons c rest ih =>
      rw [List.cons_append, List.dropWhile_cons]
      simp only [h c (by simp), if_true]
      exact ih (fun d hd => h d (by simp [hd]))
  rw [pyStrip, pyStrip, h1]

lemma pyInt_ws_front (u cs : List Char) (h : ∀ c ∈ u, isPySpace c = true) :
    pyInt (u ++ cs) = pyInt cs := by
  rw [pyInt, pyInt, pyStrip_ws_front u cs h]

lemma getLast?_append_right (l1 l2 : List Char) (h : l2 ≠ []) :
    (l1 ++ l2).getLast? = l2.getLast? := by
  rw [List.getLast?_append]
  rcases hl : l2.getLast? with _ | c
  · exact absurd (List.getLast?_eq_none_iff.mp hl) h
  · rfl

lemma mem_of_getLast?_eq (l : List Char) (a : Char) (h : l.getLast? = some a) :
    a ∈ l := by
  rcases List.getLast?_eq_some_iff.mp h with ⟨l2, rfl⟩
  simp

lemma mem_of_head?_eq (l : List Char) (a : Char) (h : l.head? = some a) : a ∈ l := by
  cases l with
  | nil => simp at h
  | cons c rest => simp at h; subst h; simp

lemma head?_append_left (l1 l2 : List Char) (a : Char) (h : l1.head? = some a) :
    (l1 ++ l2).head? = some a := by
  cases l1 <;> simp_all

lemma pyIntDigits_cons (c : Char) (rest : List Char) :
    pyIntDigits (c :: rest) =
      if c.isDigit then parseDigitsAux 0 (c :: rest) else none := rfl

lemma pyInt_not_sign (c : Char) (rest : List Char) (h1 : c ≠ '+') (h2 : c ≠ '-')
    (hstrip : pyStrip (c :: rest) = c :: rest) :
    pyInt (c :: rest) = (pyIntDigits (c :: rest)).map Int.ofNat := by
  rw [pyInt, hstrip]
  split
  · next heq => injection heq with h3 _; exact absurd h3 h1
  · next heq => injection heq with h3 _; exact absurd h3 h2
  · rfl

lemma pyInt_minus (rest : List Char)
    (hstrip : pyStrip ('-' :: rest) = '-' :: rest) :
    pyInt ('-' :: rest) = (pyIntDigits rest).map (fun n => -Int.ofNat n) := by
  rw [pyInt, hstrip]
  split
  · next heq => injection heq with h3 _; exact absurd h3 (by decide)
  · next heq => injection heq with _ h4; rw [h4]
  · next hne1 hne2 => exact absurd rfl (hne2 rest)

lemma intToChars_ne_nil (i : Int) : intToChars i ≠ [] := by
  rw [intToChars]
  by_cases h : i < 0
  · simp [h]
  · simp [h, natToChars_ne_nil]

lemma natToChars_getLast (n : Nat) :
    (natToChars n).getLast? = some (Nat.digitChar (n % 10)) := by
  by_cases h : n < 10
  · rw [natToChars_eq_of_lt n h]; rfl
  · rw [natToChars_eq_of_ge n h]; exact List.getLast?_concat _

lemma intToChars_getLast_digit (b : Int) :
    ∀ c, (intToChars b).getLast? = some c → c.isDigit = true := by
  intro c hc
  rw [intToChars] at hc
  by_cases h : b < 0
  · simp only [h, if_true] at hc
    rw [show ('-' :: natToChars b.natAbs) = ['-'] ++ natToChars b.natAbs from rfl,
      getLast?_append_right _ _ (natToChars_ne_nil _), natToChars_getLast] at hc
    injection hc with h2
    exact h2 ▸ digitChar_isDigit _ (Nat.mod_lt _ (by omega))
  · simp only [h, if_false] at hc
    rw [natToChars_getLast] at hc
    injection hc with h2
    exact h2 ▸ digitChar_isDigit _ (Nat.mod_lt _ (by omega))

lemma pyInt_intToChars (i : Int) : pyInt (intToChars i) = some i := by
  have hstrip : pyStrip (intToChars i) = intToChars i :=
    pyStrip_eq_self _ (intToChars_no_space i)
  by_cases h : i < 0
  · have hd : intToChars i = '-' :: natToChars i.natAbs := by
      rw [intToChars]; simp [h]
    rw [hd] at hstrip ⊢
    rw [pyInt_minus _ hstrip, pyIntDigits_natToChars]
    show some (-Int.ofNat i.natAbs) = some i
    congr 1
    rw [Int.ofNat_eq_natCast]
    omega
  · have hd : intToChars i = natToChars i.natAbs := by rw [intToChars]; simp [h]
    rw [hd] at hstrip ⊢
    rcases hcs : natToChars i.natAbs with _ | ⟨c, rest⟩
    · exact absurd hcs (natToChars_ne_nil _)
    · have hc : c.isDigit = true := natToChars_digits _ c (by rw [hcs]; simp)
      rw [hcs] at hstrip
      rw [pyInt_not_sign c rest (ne_plus_of_isDigit c hc) (ne_minus_of_isDigit c hc) hstrip,
        ← hcs, pyIntDigits_natToChars]
      show some (Int.ofNat i.natAbs) = some i
      congr 1
      rw [Int.ofNat_eq_natCast]
      omega

/-- Digits followed by a comma never parse (`int` raises `ValueError`). -/
lemma parseDigitsAux_digits_comma (ds : List Char) (h : ∀ c ∈ ds, c.isDigit = true) :
    ∀ acc rest, parseDigitsAux acc (ds ++ ',' :: rest) = none := by
  induction ds with
  | nil =>
    intro acc rest
    rw [List.nil_append]
    simp [parseDigitsAux.eq_def]
  | cons c t ih =>
    intro acc rest
    have hc : c.isDigit = true := h c (by simp)
    rw [List.cons_append, parseDigitsAux.eq_def]
    simp only [hc, if_true]
    exact ih (fun d hd => h d (by simp [hd])) _ _

lemma pyStrip_pair (a b : Int) :
    pyStrip (intToChars a ++ ',' :: ' ' :: intToChars b) =
      intToChars a ++ ',' :: ' ' :: intToChars b := by
  apply pyStrip_eq_self_of_ends
  · intro c hc
    rcases hcs : intToChars a with _ | ⟨c2, rest⟩
    · exact absurd hcs (intToChars_ne_nil a)
    · rw [hcs] at hc
      simp only [List.cons_append, List.head?_cons, Option.some.injEq] at hc
      subst hc
      exact intToChars_no_space a c2 (by rw [hcs]; simp)
  · intro c hc
    rw [getLast?_append_right _ _ (by simp),
      show (',' :: ' ' :: intToChars b) = [',', ' '] ++ intToChars b from rfl,
      getLast?_append_right _ _ (intToChars_ne_nil b)] at hc
    have hd : c.isDigit = true := intToChars_getLast_digit b c hc
    exact isPySpace_of_isDigit c hd

/-- The exported tone-curve item text `"x, y"` fails `int()`. -/
lemma pyInt_pair_str (a b : Int) :
    pyInt (intToChars a ++ ',' :: ' ' :: intToChars b) = none := by
  have hstrip := pyStrip_pair a b
  by_cases h : a < 0
  · have hd : intToChars a = '-' :: natToChars a.natAbs := by
      rw [intToChars]; simp [h]
    rw [hd, List.cons_append] at hstrip ⊢
    rw [pyInt_minus _ hstrip]
    rcases hcs : natToChars a.natAbs with _ | ⟨c, rest⟩
    · exact absurd hcs (natToChars_ne_nil _)
    · have hc : c.isDigit = true := natToChars_digits _ c (by rw [hcs]; simp)
      have hall : parseDigitsAux 0 (c :: (rest ++ ',' :: (' ' :: intToChars b))) = none := by
        have h2 := parseDigitsAux_digits_comma (natToChars a.natAbs)
          (natToChars_digits _) 0 (' ' :: intToChars b)
        rw [hcs, List.cons_append] at h2
        exact h2
      rw [List.cons_append, pyIntDigits_cons]
      simp only [hc, if_true]
      rw [hall]
      rfl
  · have hd : intToChars a = natToChars a.natAbs := by rw [intToChars]; simp [h]
    rw [hd] at hstrip ⊢
    rcases hcs : natToChars a.natAbs with _ | ⟨c, rest⟩
    · exact absurd hcs (natToChars_ne_nil _)
    · have hc : c.isDigit = true := natToChars_digits _ c (by rw [hcs]; simp)
      rw [hcs, List.cons_append] at hstrip
      have hall : parseDigitsAux 0 (c :: (rest ++ ',' :: (' ' :: intToChars b))) = none := by
        have h2 := parseDigitsAux_digits_comma (natToChars a.natAbs)
          (natToChars_digits _) 0 (' ' :: intToChars b)
        rw [hcs, List.cons_append] at h2
        exact h2
      rw [List.cons_append, pyInt_not_sign c _ (ne_plus_of_isDigit c hc)
        (ne_minus_of_isDigit c hc) hstrip, pyIntDigits_cons]
      simp only [hc, if_true]
      rw [hall]
      rfl

/-! ## Lemmas: comma splitting and the codec round trip -/

lemma splitCommaAux_cons_ne (c : Char) (h : c ≠ ',') (rest cur : List Char) :
    splitCommaAux (c :: rest) cur = splitCommaAux rest (c :: cur) := by
  rw [splitCommaAux.eq_def]
  simp [h]

lemma splitCommaAux_cons_comma (rest cur : List Char) :
    splitCommaAux (',' :: rest) cur = cur.reverse :: splitCommaAux rest [] := by
  rw [splitCommaAux.eq_def]
  simp

lemma splitCommaAux_no_comma (tok : List Char) (h : ∀ c ∈ tok, c ≠ ',') :
    ∀ cur, splitCommaAux tok cur = [cur.reverse ++ tok] := by
  induction tok with
  | nil => intro cur; simp [splitCommaAux]
  | cons c t ih =>
    intro cur
    rw [splitCommaAux_cons_ne c (h c (by simp)) t cur,
      ih (fun d hd => h d (by simp [hd]))]
    simp

lemma splitCommaAux_append_comma (tok : List Char) (h : ∀ c ∈ tok, c ≠ ',')
    (rest : List Char) :
    ∀ cur, splitCommaAux (tok ++ ',' :: rest) cur =
      (cur.reverse ++ tok) :: splitCommaAux rest [] := by
  induction tok with
  | nil =>
    intro cur
    rw [List.nil_append, splitCommaAux_cons_comma]
    simp
  | cons c t ih =>
    intro cur
    rw [List.cons_append, splitCommaAux_cons_ne c (h c (by simp)),
      ih (fun d hd => h d (by simp [hd]))]
    simp

lemma splitCommaAux_ne_nil (cs : List Char) : ∀ cur, splitCommaAux cs cur ≠ [] := by
  induction cs with
  | nil => intro cur; simp [splitCommaAux]
  | cons c t ih =>
    intro cur
    rw [splitCommaAux.eq_def]
    by_cases h : c = ',' <;> simp [h, ih]

/-- Flatten a point list back to the value sequence it came from. -/
def flattenPairs : ToneCurve → List Int
  | [] => []
  | p :: rest => p.1 :: p.2 :: flattenPairs rest

lemma pairUp_flattenPairs (pts : ToneCurve) : pairUp (flattenPairs pts) = pts := by
  induction pts with
  | nil => rfl
  | cons p rest ih =>
    rw [flattenPairs, pairUp, ih]

lemma flattenPairs_ne_nil (pts : ToneCurve) (h : pts ≠ []) : flattenPairs pts ≠ [] := by
  cases pts with
  | nil => exact absurd rfl h
  | cons p rest => rw [flattenPairs]; simp

lemma pairUp_length (l : List Int) : (pairUp l).length = l.length / 2 := by
  induction l using pairUp.induct with
  | case1 a b rest ih => rw [pairUp]; simp [ih]; omega
  | case2 l h =>
    rcases l with _ | ⟨a, _ | ⟨b, rest⟩⟩
    · simp [pairUp]
    · simp [pairUp]
    · exact absurd rfl (h a b rest)

lemma flattenPairs_pairUp (l : List Int) :
    flattenPairs (pairUp l) = l.take (2 * (l.length / 2)) := by
  induction l using pairUp.induct with
  | case1 a b rest ih =>
    rw [pairUp, flattenPairs, ih]
    have h2 : 2 * ((a :: b :: rest).length / 2) = 2 * (rest.length / 2) + 2 := by
      simp; omega
    rw [h2]
    rfl
  | case2 l h =>
    rcases l with _ | ⟨a, _ | ⟨b, rest⟩⟩
    · simp [pairUp, flattenPairs]
    · simp [pairUp, flattenPairs]
    · exact absurd rfl (h a b rest)

lemma flattenPairs_pairUp_even (l : List Int) (h : l.length % 2 = 0) :
    flattenPairs (pairUp l) = l := by
  rw [flattenPairs_pairUp]
  have h2 : 2 * (l.length / 2) = l.length := by omega
  rw [h2, List.take_length]

lemma toneCurveStr_ne_nil (pts : ToneCurve) (h : pts ≠ []) : toneCurveStr pts ≠ [] := by
  cases pts with
  | nil => exact absurd rfl h
  | cons p rest =>
    cases rest with
    | nil =>
      rw [show toneCurveStr [p] = intToChars p.1 ++ ',' :: ' ' :: intToChars p.2
        from rfl]
      simp [intToChars_ne_nil]
    | cons q rest2 =>
      rw [show toneCurveStr (p :: q :: rest2) =
        (intToChars p.1 ++ ',' :: ' ' :: intToChars p.2) ++
          ',' :: ' ' :: toneCurveStr (q :: rest2) from rfl]
      simp [intToChars_ne_nil]

lemma intToChars_no_comma' (i : Int) : ∀ c ∈ intToChars i, ¬c = ',' :=
  intToChars_no_comma i

/-- A whitespace run followed by a rendered integer strips and parses back. -/
lemma stripParse_ws_int (u : List Char) (hu : ∀ c ∈ u, isPySpace c = true) (i : Int) :
    pyInt (pyStrip (u ++ intToChars i)) = some i := by
  rw [pyStrip_ws_front u _ hu, pyStrip_eq_self _ (intToChars_no_space i)]
  have h2 : pyStrip (intToChars i) = intToChars i :=
    pyStrip_eq_self _ (intToChars_no_space i)
  calc pyInt (intToChars i) = some i := pyInt_intToChars i

/-- Core token lemma: splitting the rendered curve and parsing each token
recovers the flattened value sequence, for any leading-whitespace
carry-over. -/
lemma tokens_toneCurveStr :
    ∀ (pts : ToneCurve), pts ≠ [] →
    ∀ pre : List Char, (∀ c ∈ pre, isPySpace c = true) →
      (splitCommaAux (toneCurveStr pts) pre).map (fun t => pyInt (pyStrip t)) =
        (flattenPairs pts).map some := by
  intro pts
  induction pts with
  | nil => intro h; exact absurd rfl h
  | cons p rest ih =>
    intro _ pre hpre
    have hpre2 : ∀ c ∈ pre.reverse, isPySpace c = true := by
      intro c hc; exact hpre c (List.mem_reverse.mp hc)
    have hsp : ∀ c ∈ ([' '] : List Char), isPySpace c = true := by
      intro c hc; simp at hc; subst hc; rfl
    cases rest with
    | nil =>
      rw [show toneCurveStr [p] = intToChars p.1 ++ ',' :: (' ' :: intToChars p.2)
          from rfl,
        splitCommaAux_append_comma _ (intToChars_no_comma' p.1),
        splitCommaAux_cons_ne ' ' (by decide),
        splitCommaAux_no_comma _ (intToChars_no_comma' p.2)]
      simp only [List.map_cons, List.map_nil, List.reverse_cons, List.reverse_nil,
        List.nil_append]
      rw [stripParse_ws_int _ hpre2, stripParse_ws_int [' '] hsp]
      rfl
    | cons q rest2 =>
      have hs : toneCurveStr (p :: q :: rest2) =
          intToChars p.1 ++ ',' :: (' ' :: (intToChars p.2 ++
            ',' :: (' ' :: toneCurveStr (q :: rest2)))) := by
        rw [show toneCurveStr (p :: q :: rest2) =
          (intToChars p.1 ++ ',' :: ' ' :: intToChars p.2) ++
            ',' :: ' ' :: toneCurveStr (q :: rest2) from rfl]
        simp
      rw [hs, splitCommaAux_append_comma _ (intToChars_no_comma' p.1),
        splitCommaAux_cons_ne ' ' (by decide),
        splitCommaAux_append_comma _ (intToChars_no_comma' p.2),
        splitCommaAux_cons_ne ' ' (by decide)]
      rw [show flattenPairs (p :: q :: rest2) =
        p.1 :: p.2 :: flattenPairs (q :: rest2) from rfl]
      simp only [List.map_cons, List.reverse_cons, List.reverse_nil, List.nil_append]
      rw [stripParse_ws_int _ hpre2, stripParse_ws_int [' '] hsp,
        ih (List.cons_ne_nil q rest2) [' '] hsp]

lemma mapM_eq_some_of_map {α β : Type} (f : α → Option β) :
    ∀ (l : List α) (vs : List β), l.map f = vs.map some → l.mapM f = some vs := by
  intro l
  induction l with
  | nil =>
    intro vs h
    cases vs with
    | nil => rfl
    | cons v t => simp at h
  | cons a t ih =>
    intro vs h
    cases vs with
    | nil => simp at h
    | cons v vt =>
      simp only [List.map_cons, List.cons.injEq] at h
      rw [List.mapM_cons, h.1, ih vt h.2]
      rfl

lemma map_of_mapM_eq_some {α β : Type} (f : α → Option β) :
    ∀ (l : List α) (vs : List β), l.mapM f = some vs → l.map f = vs.map some := by
  intro l
  induction l with
  | nil =>
    intro vs h
    simp only [List.mapM_nil, Option.pure_def, Option.some.injEq] at h
    rw [← h]
    rfl
  | cons a t ih =>
    intro vs h
    rw [List.mapM_cons] at h
    rcases ha : f a with _ | v
    · rw [ha] at h; simp at h
    · rcases ht : t.mapM f with _ | vt
      · rw [ha, ht] at h; simp at h
      · rw [ha, ht] at h
        simp at h
        subst h
        simp [List.map_cons, ha, ih vt ht]

/-- Round trip: parsing the canonical rendering of a nonempty curve
recovers the curve. -/
lemma parse_toneCurveStr (pts : ToneCurve) (hne : pts ≠ []) :
    parse_tone_curve (some (.str (toneCurveStr pts))) = some pts := by
  have htok : (splitOnComma (toneCurveStr pts)).map (fun t => pyInt (pyStrip t)) =
      (flattenPairs pts).map some :=
    tokens_toneCurveStr pts hne [] (by intro c hc; simp at hc)
  have hmapM : (splitOnComma (toneCurveStr pts)).mapM (fun t => pyInt (pyStrip t)) =
      some (flattenPairs pts) :=
    mapM_eq_some_of_map _ _ _ htok
  rw [show (PyVal.str (toneCurveStr pts)) = .atom (.astr (toneCurveStr pts)) from rfl,
    parse_tone_curve]
  have hfalsy : isFalsyVal (.atom (.astr (toneCurveStr pts))) = false := by
    rw [isFalsyVal]
    simp [toneCurveStr_ne_nil pts hne]
  rw [hfalsy]
  simp only [Bool.false_eq_true, if_false]
  rw [hmapM]
  simp only [pairUp_flattenPairs]
  simp [hne]

/-! ## Lemmas: Bresenham termination and grid safety -/

lemma drawLineGo_eq (x2 y2 sx sy dx dy : Int) (fuel : Nat) (g : Grid)
    (x1 y1 err : Int) :
    drawLineGo x2 y2 sx sy dx dy (fuel + 1) g x1 y1 err =
      if x1 = x2 ∧ y1 = y2 then some (plot g x1 y1)
      else
        drawLineGo x2 y2 sx sy dx dy fuel (plot g x1 y1)
          (if 2 * err > -dy then x1 + sx else x1)
          (if 2 * err < dx then y1 + sy else y1)
          (if 2 * err < dx then (if 2 * err > -dy then err - dy else err) + dx
           else (if 2 * err > -dy then err - dy else err)) := by
  rw [drawLineGo]

/-- Fuel sufficiency for the Bresenham loop: with the loop invariant
(`(x2-x1)*sx` and `(y2-y1)*sy` are the remaining distances, bounded by
`dx`/`dy`, and `err` is determined by them), the loop reaches the endpoint
before the fuel runs out. -/
lemma drawLineGo_isSome (x2 y2 sx sy dx dy : Int)
    (hsx : sx = 1 ∨ sx = -1) (hsy : sy = 1 ∨ sy = -1)
    (hdx : 0 ≤ dx) (hdy : 0 ≤ dy) :
    ∀ (fuel : Nat) (g : Grid) (x1 y1 err : Int),
      (x2 - x1) * sx + (y2 - y1) * sy < (fuel : Int) →
      0 ≤ (x2 - x1) * sx → (x2 - x1) * sx ≤ dx →
      0 ≤ (y2 - y1) * sy → (y2 - y1) * sy ≤ dy →
      err = dx - dy + dy * ((x2 - x1) * sx) - dx * ((y2 - y1) * sy) →
      (drawLineGo x2 y2 sx sy dx dy fuel g x1 y1 err).isSome = true := by
  have hsx2 : sx * sx = 1 := by rcases hsx with h | h <;> rw [h] <;> ring
  have hsy2 : sy * sy = 1 := by rcases hsy with h | h <;> rw [h] <;> ring
  intro fuel
  induction fuel with
  | zero =>
    intro g x1 y1 err hfuel hA0 hAd hB0 hBd herr
    exfalso
    simp only [Nat.cast_zero] at hfuel
    linarith
  | succ n ih =>
    intro g x1 y1 err hfuel hA0 hAd hB0 hBd herr
    rw [drawLineGo_eq]
    by_cases hend : x1 = x2 ∧ y1 = y2
    · rw [if_pos hend]; rfl
    · rw [if_neg hend]
      have hAiff : (x2 - x1) * sx = 0 ↔ x1 = x2 := by
        constructor
        · intro h0
          rcases mul_eq_zero.mp h0 with h1 | h1
          · omega
          · rcases hsx with h2 | h2 <;> omega
        · intro h1; rw [h1]; ring
      have hBiff : (y2 - y1) * sy = 0 ↔ y1 = y2 := by
        constructor
        · intro h0
          rcases mul_eq_zero.mp h0 with h1 | h1
          · omega
          · rcases hsy with h2 | h2 <;> omega
        · intro h1; rw [h1]; ring
      have hfuel2 : (x2 - x1) * sx + (y2 - y1) * sy < (n : Int) + 1 := by
        push_cast at hfuel
        linarith
      have hAstep : ∀ hc : 2 * err > -dy, 1 ≤ (x2 - x1) * sx := by
        intro hc
        by_contra hA1n
        have hA0eq : (x2 - x1) * sx = 0 := by omega
        have hx12 : x1 = x2 := hAiff.mp hA0eq
        have hB1 : 1 ≤ (y2 - y1) * sy := by
          rcases lt_or_eq_of_le hB0 with h1 | h1
          · omega
          · exact absurd ⟨hx12, hBiff.mp h1.symm⟩ hend
        have hdy1 : 1 ≤ dy := le_trans hB1 hBd
        have herr2 : err = dx - dy - dx * ((y2 - y1) * sy) := by
          rw [herr, hA0eq]; ring
        have hp : dx ≤ dx * ((y2 - y1) * sy) := le_mul_of_one_le_right hdx hB1
        linarith
      have hBstep : ∀ hc : 2 * err < dx, 1 ≤ (y2 - y1) * sy := by
        intro hc
        by_contra hB1n
        have hB0eq : (y2 - y1) * sy = 0 := by omega
        have hy12 : y1 = y2 := hBiff.mp hB0eq
        have hA1 : 1 ≤ (x2 - x1) * sx := by
          rcases lt_or_eq_of_le hA0 with h1 | h1
          · omega
          · exact absurd ⟨hAiff.mp h1.symm, hy12⟩ hend
        have hdx1 : 1 ≤ dx := le_trans hA1 hAd
        have herr2 : err = dx - dy + dy * ((x2 - x1) * sx) := by
          rw [herr, hB0eq]; ring
        have hp : dy ≤ dy * ((x2 - x1) * sx) := le_mul_of_one_le_right hdy hA1
        linarith
      have hAn : ∀ h1 : 1 ≤ (x2 - x1) * sx, (x2 - (x1 + sx)) * sx = (x2 - x1) * sx - 1 := by
        intro _
        have h2 : (x2 - (x1 + sx)) * sx = (x2 - x1) * sx - sx * sx := by ring
        rw [h2, hsx2]
      have hBn : ∀ h1 : 1 ≤ (y2 - y1) * sy, (y2 - (y1 + sy)) * sy = (y2 - y1) * sy - 1 := by
        intro _
        have h2 : (y2 - (y1 + sy)) * sy = (y2 - y1) * sy - sy * sy := by ring
        rw [h2, hsy2]
      by_cases c1 : 2 * err > -dy <;> by_cases c2 : 2 * err < dx
      · -- both step
        have hA1 := hAstep c1
        have hB1 := hBstep c2
        simp only [if_pos c1, if_pos c2]
        apply ih
        · rw [hAn hA1, hBn hB1]; linarith
        · rw [hAn hA1]; linarith
        · rw [hAn hA1]; linarith
        · rw [hBn hB1]; linarith
        · rw [hBn hB1]; linarith
        · rw [hAn hA1, hBn hB1]; linarith [herr]
      · -- x steps only
        have hA1 := hAstep c1
        simp only [if_pos c1, if_neg c2]
        apply ih
        · rw [hAn hA1]; linarith
        · rw [hAn hA1]; linarith
        · rw [hAn hA1]; linarith
        · exact hB0
        · exact hBd
        · rw [hAn hA1]; linarith [herr]
      · -- y steps only
        have hB1 := hBstep c2
        simp only [if_neg c1, if_pos c2]
        apply ih
        · rw [hBn hB1]; linarith
        · exact hA0
        · exact hAd
        · rw [hBn hB1]; linarith
        · rw [hBn hB1]; linarith
        · rw [hBn hB1]; linarith [herr]
      · -- no step possible: contradiction
        exfalso
        have h1 : 2 * err ≤ -dy := not_lt.mp c1
        have h2 : dx ≤ 2 * err := not_lt.mp c2
        have hdx0 : dx = 0 := by linarith
        have hdy0 : dy = 0 := by linarith
        apply hend
        constructor
        · exact hAiff.mp (by omega)
        · exact hBiff.mp (by omega)

/-- The Bresenham call of the widget always terminates within its fuel. -/
lemma draw_line_isSome (g : Grid) (x1 y1 x2 y2 : Int) :
    (draw_line g x1 y1 x2 y2).isSome = true := by
  rw [draw_line]
  have hA : (x2 - x1) * (if x1 < x2 then (1 : Int) else -1) = |x2 - x1| := by
    by_cases h : x1 < x2
    · rw [if_pos h, mul_one, abs_of_nonneg (by omega : (0:Int) ≤ x2 - x1)]
    · rw [if_neg h, abs_of_nonpos (by omega : x2 - x1 ≤ 0)]; ring
  have hB : (y2 - y1) * (if y1 < y2 then (1 : Int) else -1) = |y2 - y1| := by
    by_cases h : y1 < y2
    · rw [if_pos h, mul_one, abs_of_nonneg (by omega : (0:Int) ≤ y2 - y1)]
    · rw [if_neg h, abs_of_nonpos (by omega : y2 - y1 ≤ 0)]; ring
  have hcast : (((|x2 - x1| + |y2 - y1|).toNat + 1 : Nat) : Int) =
      |x2 - x1| + |y2 - y1| + 1 := by
    push_cast
    rw [Int.toNat_of_nonneg (by positivity)]
  apply drawLineGo_isSome
  · by_cases h : x1 < x2 <;> simp [h]
  · by_cases h : y1 < y2 <;> simp [h]
  · exact abs_nonneg _
  · exact abs_nonneg _
  · rw [hA, hB, hcast]; linarith
  · rw [hA]; positivity
  · rw [hA]
  · rw [hB]; positivity
  · rw [hB]
  · rw [hA, hB]; ring

lemma drawSegments_isSome (fx fy : Int → Int) :
    ∀ (segs : List ((Int × Int) × (Int × Int))) (g : Grid),
      (drawSegments fx fy g segs).isSome = true := by
  intro segs
  induction segs with
  | nil => intro g; rfl
  | cons s rest ih =>
    intro g
    rcases s with ⟨p, q⟩
    rw [drawSegments]
    rcases hdl : draw_line g (fx p.1) (fy p.2) (fx q.1) (fy q.2) with _ | g2
    · have h2 := draw_line_isSome g (fx p.1) (fy p.2) (fx q.1) (fy q.2)
      rw [hdl] at h2
      simp at h2
    · exact ih g2

/-- The renderer is total for every curve, whichever coordinate mapping. -/
lemma renderWith_isSome (fx fy : Int → Int) (tc : Option ToneCurve) :
    (renderWith fx fy tc).isSome = true := by
  rcases tc with _ | (_ | ⟨p, rest⟩)
  · rfl
  · rfl
  · show ((drawSegments fx fy initGrid (consecutivePairs (p :: rest))).map
      RenderOut.grid).isSome = true
    rcases hds : drawSegments fx fy initGrid (consecutivePairs (p :: rest)) with _ | g
    · have h2 := drawSegments_isSome fx fy (consecutivePairs (p :: rest)) initGrid
      rw [hds] at h2
      simp at h2
    · rfl

lemma plot_outside (g : Grid) (x y ys xs : Int)
    (h : ¬(0 ≤ ys ∧ ys < 20 ∧ 0 ≤ xs ∧ xs < 60)) :
    plot g x y ys xs = g ys xs := by
  rw [plot]
  split
  · next hin =>
    show (if ys = y ∧ xs = x then '●' else g ys xs) = g ys xs
    by_cases heq : ys = y ∧ xs = x
    · exfalso
      apply h
      rcases heq with ⟨rfl, rfl⟩
      exact ⟨hin.1, hin.2.1, hin.2.2.1, hin.2.2.2.1⟩
    · rw [if_neg heq]
  · rfl

lemma drawLineGo_outside (x2 y2 sx sy dx dy : Int) :
    ∀ (fuel : Nat) (g : Grid) (x1 y1 err : Int) (g2 : Grid),
      drawLineGo x2 y2 sx sy dx dy fuel g x1 y1 err = some g2 →
      ∀ ys xs, ¬(0 ≤ ys ∧ ys < 20 ∧ 0 ≤ xs ∧ xs < 60) → g2 ys xs = g ys xs := by
  intro fuel
  induction fuel with
  | zero =>
    intro g x1 y1 err g2 h
    rw [drawLineGo] at h
    exact absurd h (by simp)
  | succ n ih =>
    intro g x1 y1 err g2 h ys xs hout
    rw [drawLineGo_eq] at h
    by_cases hend : x1 = x2 ∧ y1 = y2
    · rw [if_pos hend] at h
      injection h with h2
      rw [← h2]
      exact plot_outside g x1 y1 ys xs hout
    · rw [if_neg hend] at h
      rw [ih _ _ _ _ _ h ys xs hout]
      exact plot_outside g x1 y1 ys xs hout

lemma draw_line_outside (g : Grid) (x1 y1 x2 y2 : Int) (g2 : Grid)
    (h : draw_line g x1 y1 x2 y2 = some g2)
    (ys xs : Int) (hout : ¬(0 ≤ ys ∧ ys < 20 ∧ 0 ≤ xs ∧ xs < 60)) :
    g2 ys xs = g ys xs := by
  rw [draw_line] at h
  exact drawLineGo_outside _ _ _ _ _ _ _ _ _ _ _ _ h ys xs hout

lemma drawSegments_outside (fx fy : Int → Int) :
    ∀ (segs : List ((Int × Int) × (Int × Int))) (g g2 : Grid),
      drawSegments fx fy g segs = some g2 →
      ∀ ys xs, ¬(0 ≤ ys ∧ ys < 20 ∧ 0 ≤ xs ∧ xs < 60) → g2 ys xs = g ys xs := by
  intro segs
  induction segs with
  | nil =>
    intro g g2 h ys xs hout
    rw [drawSegments] at h
    injection h with h2
    rw [h2]
  | cons s rest ih =>
    intro g g2 h ys xs hout
    rcases s with ⟨p, q⟩
    rw [drawSegments] at h
    rcases hdl : draw_line g (fx p.1) (fy p.2) (fx q.1) (fy q.2) with _ | g3
    · rw [hdl] at h; exact absurd h (by simp)
    · rw [hdl] at h
      rw [ih g3 g2 h ys xs hout]
      exact draw_line_outside g _ _ _ _ g3 hdl ys xs hout

lemma initGrid_outside (ys xs : Int)
    (hout : ¬(0 ≤ ys ∧ ys < 20 ∧ 0 ≤ xs ∧ xs < 60)) : initGrid ys xs = ' ' := by
  rw [initGrid]
  simp only [if_neg hout]

/-- No cell outside the 20x60 rectangle is ever written: a rendered grid
agrees with the blank background there. -/
lemma renderWith_outside (fx fy : Int → Int) (pts : ToneCurve) (g : Grid)
    (h : renderWith fx fy (some pts) = some (.grid g))
    (ys xs : Int) (hout : ¬(0 ≤ ys ∧ ys < 20 ∧ 0 ≤ xs ∧ xs < 60)) :
    g ys xs = ' ' := by
  cases pts with
  | nil =>
    rw [show renderWith fx fy (some ([] : ToneCurve)) = some .placeholder from rfl] at h
    exact absurd h (by simp)
  | cons p rest =>
    rw [show renderWith fx fy (some (p :: rest)) =
      (drawSegments fx fy initGrid (consecutivePairs (p :: rest))).map RenderOut.grid
      from rfl] at h
    rcases hds : drawSegments fx fy initGrid (consecutivePairs (p :: rest)) with _ | g2
    · rw [hds] at h; exact absurd h (by simp)
    · rw [hds] at h
      simp only [Option.map_some'] at h
      injection h with h2
      injection h2 with h3
      rw [← h3, drawSegments_outside fx fy _ _ _ hds ys xs hout]
      exact initGrid_outside ys xs hout

/-! ## Lemmas: the importer maps each tag to its own field independently -/

lemma setField_exposure (a : LightroomAdjustments) (attr : String) (v : PyVal) :
    (setField a attr v).exposure =
      if attr = "exposure" then some v else a.exposure := by
  rw [setField.eq_def]
  split <;> simp_all

lemma setField_tone_curve (a : LightroomAdjustments) (attr : String) (v : PyVal) :
    (setField a attr v).tone_curve = a.tone_curve := by
  rw [setField.eq_def]
  split <;> rfl

lemma stepTag_exposure (data : List (String × PyVal)) (a : LightroomAdjustments)
    (tag attr : String) :
    (stepTag data a (tag, attr)).exposure =
      if attr = "exposure" then
        (match lookupD data tag with | some v => some v | none => a.exposure)
      else a.exposure := by
  rw [stepTag.eq_def]
  rcases lookupD data tag with _ | v
  · by_cases h : attr = "exposure" <;> simp [h]
  · by_cases h : attr = "tone_curve"
    · subst h; simp
    · simp only [h, if_false]
      rw [setField_exposure]

lemma stepTag_tone_curve (data : List (String × PyVal)) (a : LightroomAdjustments)
    (tag attr : String) :
    (stepTag data a (tag, attr)).tone_curve =
      if attr = "tone_curve" then
        (match lookupD data tag with
         | some v => parse_tone_curve (some v)
         | none => a.tone_curve)
      else a.tone_curve := by
  rw [stepTag.eq_def]
  rcases lookupD data tag with _ | v
  · by_cases h : attr = "tone_curve" <;> simp [h]
  · by_cases h : attr = "tone_curve"
    · subst h; simp
    · simp only [h, if_false]
      rw [setField_tone_curve]

lemma extractTags_exposure (data : List (String × PyVal)) (a : LightroomAdjustments) :
    (applyTags data LR_TAGS a).exposure =
      (match lookupD data "XMP:Exposure2012" with
       | some v => some v
       | none => a.exposure) := by
  simp only [applyTags, LR_TAGS, List.foldl_cons, List.foldl_nil]
  simp only [stepTag_exposure]
  simp

/-- `hslStep` only rewrites the three HSL dictionaries. -/
lemma hslStep_eq (data : List (String × PyVal)) (a : LightroomAdjustments)
    (c : String) :
    hslStep data a c = { a with
      hue_adjustments :=
        (match lookupD data ("XMP:HueAdjustment" ++ c) with
         | some v => dictInsert a.hue_adjustments c.toLower v
         | none => a.hue_adjustments),
      saturation_adjustments :=
        (match lookupD data ("XMP:SaturationAdjustment" ++ c) with
         | some v => dictInsert a.saturation_adjustments c.toLower v
         | none => a.saturation_adjustments),
      luminance_adjustments :=
        (match lookupD data ("XMP:LuminanceAdjustment" ++ c) with
         | some v => dictInsert a.luminance_adjustments c.toLower v
         | none => a.luminance_adjustments) } := by
  rw [hslStep.eq_def]
  rcases lookupD data ("XMP:HueAdjustment" ++ c) with _ | v1 <;>
    rcases lookupD data ("XMP:SaturationAdjustment" ++ c) with _ | v2 <;>
      rcases lookupD data ("XMP:LuminanceAdjustment" ++ c) with _ | v3 <;> rfl

/-- The HSL loop leaves every non-dictionary field unchanged. -/
lemma hslFold_shape (data : List (String × PyVal)) :
    ∀ (colors : List String) (a : LightroomAdjustments),
      ∃ hd sd ld, colors.foldl (hslStep data) a =
        { a with hue_adjustments := hd, saturation_adjustments := sd,
                 luminance_adjustments := ld } := by
  intro colors
  induction colors with
  | nil =>
    intro a
    exact ⟨a.hue_adjustments, a.saturation_adjustments, a.luminance_adjustments, rfl⟩
  | cons c cs ih =>
    intro a
    rw [List.foldl_cons, hslStep_eq]
    obtain ⟨hd, sd, ld, heq⟩ := ih _
    exact ⟨hd, sd, ld, heq⟩

lemma extract_ok_exposure (p : String) (data : List (String × PyVal))
    (rest : List (List (String × PyVal))) :
    (extract p (.ok (data :: rest))).exposure = lookupD data "XMP:Exposure2012" := by
  rw [show extract p (.ok (data :: rest)) =
    extract_hsl_adjustments data (applyTags data LR_TAGS (baseAdjustments p)) from rfl]
  obtain ⟨hd, sd, ld, heq⟩ :=
    hslFold_shape data hslColors (applyTags data LR_TAGS (baseAdjustments p))
  rw [extract_hsl_adjustments, heq]
  show (applyTags data LR_TAGS (baseAdjustments p)).exposure = _
  rw [extractTags_exposure]
  rcases lookupD data "XMP:Exposure2012" with _ | v <;> rfl

lemma setField_contrast (a : LightroomAdjustments) (attr : String) (v : PyVal) :
    (setField a attr v).contrast =
      if attr = "contrast" then some v else a.contrast := by
  rw [setField.eq_def]
  split <;> simp_all

lemma stepTag_contrast (data : List (String × PyVal)) (a : LightroomAdjustments)
    (tag attr : String) :
    (stepTag data a (tag, attr)).contrast =
      if attr = "contrast" then
        (match lookupD data tag with | some v => some v | none => a.contrast)
      else a.contrast := by
  rw [stepTag.eq_def]
  rcases lookupD data tag with _ | v
  · by_cases h : attr = "contrast" <;> simp [h]
  · by_cases h : attr = "tone_curve"
    · subst h; simp
    · simp only [h, if_false]
      rw [setField_contrast]

lemma extractTags_contrast (data : List (String × PyVal)) (a : LightroomAdjustments) :
    (applyTags data LR_TAGS a).contrast =
      (match lookupD data "XMP:Contrast2012" with
       | some v => some v
       | none => a.contrast) := by
  simp only [applyTags, LR_TAGS, List.foldl_cons, List.foldl_nil]
  simp only [stepTag_contrast]
  simp

lemma extract_ok_contrast (p : String) (data : List (String × PyVal))
    (rest : List (List (String × PyVal))) :
    (extract p (.ok (data :: rest))).contrast = lookupD data "XMP:Contrast2012" := by
  rw [show extract p (.ok (data :: rest)) =
    extract_hsl_adjustments data (applyTags data LR_TAGS (baseAdjustments p)) from rfl]
  obtain ⟨hd, sd, ld, heq⟩ :=
    hslFold_shape data hslColors (applyTags data LR_TAGS (baseAdjustments p))
  rw [extract_hsl_adjustments, heq]
  show (applyTags data LR_TAGS (baseAdjustments p)).contrast = _
  rw [extractTags_contrast]
  rcases lookupD data "XMP:Contrast2012" with _ | v <;> rfl

lemma setField_highlights (a : LightroomAdjustments) (attr : String) (v : PyVal) :
    (setField a attr v).highlights =
      if attr = "highlights" then some v else a.highlights := by
  rw [setField.eq_def]
  split <;> simp_all

lemma stepTag_highlights (data : List (String × PyVal)) (a : LightroomAdjustments)
    (tag attr : String) :
    (stepTag data a (tag, attr)).highlights =
      if attr = "highlights" then
        (match lookupD data tag with | some v => some v | none => a.highlights)
      else a.highlights := by
  rw [stepTag.eq_def]
  rcases lookupD data tag with _ | v
  · by_cases h : attr = "highlights" <;> simp [h]
  · by_cases h : attr = "tone_curve"
    · subst h; simp
    · simp only [h, if_false]
      rw [setField_highlights]

lemma extractTags_highlights (data : List (String × PyVal)) (a : LightroomAdjustments) :
    (applyTags data LR_TAGS a).highlights =
      (match lookupD data "XMP:Highlights2012" with
       | some v => some v
       | none => a.highlights) := by
  simp only [applyTags, LR_TAGS, List.foldl_cons, List.foldl_nil]
  simp only [stepTag_highlights]
  simp

lemma extract_ok_highlights (p : String) (data : List (String × PyVal))
    (rest : List (List (String × PyVal))) :
    (extract p (.ok (data :: rest))).highlights = lookupD data "XMP:Highlights2012" := by
  rw [show extract p (.ok (data :: rest)) =
    extract_hsl_adjustments data (applyTags data LR_TAGS (baseAdjustments p)) from rfl]
  obtain ⟨hd, sd, ld, heq⟩ :=
    hslFold_shape data hslColors (applyTags data LR_TAGS (baseAdjustments p))
  rw [extract_hsl_adjustments, heq]
  show (applyTags data LR_TAGS (baseAdjustments p)).highlights = _
  rw [extractTags_highlights]
  rcases lookupD data "XMP:Highlights2012" with _ | v <;> rfl

lemma setField_shadows (a : LightroomAdjustments) (attr : String) (v : PyVal) :
    (setField a attr v).shadows =
      if attr = "shadows" then some v else a.shadows := by
  rw [setField.eq_def]
  split <;> simp_all

lemma stepTag_shadows (data : List (String × PyVal)) (a : LightroomAdjustments)
    (tag attr : String) :
    (stepTag data a (tag, attr)).shadows =
      if attr = "shadows" then
        (match lookupD data tag with | some v => some v | none => a.shadows)
      else a.shadows := by
  rw [stepTag.eq_def]
  rcases lookupD data tag with _ | v
  · by_cases h : attr = "shadows" <;> simp [h]
  · by_cases h : attr = "tone_curve"
    · subst h; simp
    · simp only [h, if_false]
      rw [setField_shadows]

lemma extractTags_shadows (data : List (String × PyVal)) (a : LightroomAdjustments) :
    (applyTags data LR_TAGS a).shadows =
      (match lookupD data "XMP:Shadows2012" with
       | some v => some v
       | none => a.shadows) := by
  simp only [applyTags, LR_TAGS, List.foldl_cons, List.foldl_nil]
  simp only [stepTag_shadows]
  simp

lemma extract_ok_shadows (p : String) (data : List (String × PyVal))
    (rest : List (List (String × PyVal))) :
    (extract p (.ok (data :: rest))).shadows = lookupD data "XMP:Shadows2012" := by
  rw [show extract p (.ok (data :: rest)) =
    extract_hsl_adjustments data (applyTags data LR_TAGS (baseAdjustments p)) from rfl]
  obtain ⟨hd, sd, ld, heq⟩ :=
    hslFold_shape data hslColors (applyTags data LR_TAGS (baseAdjustments p))
  rw [extract_hsl_adjustments, heq]
  show (applyTags data LR_TAGS (baseAdjustments p)).shadows = _
  rw [extractTags_shadows]
  rcases lookupD data "XMP:Shadows2012" with _ | v <;> rfl

lemma setField_whites (a : LightroomAdjustments) (attr : String) (v : PyVal) :
    (setField a attr v).whites =
      if attr = "whites" then some v else a.whites := by
  rw [setField.eq_def]
  split <;> simp_all

lemma stepTag_whites (data : List (String × PyVal)) (a : LightroomAdjustments)
    (tag attr : String) :
    (stepTag data a (tag, attr)).whites =
      if attr = "whites" then
        (match lookupD data tag with | some v => some v | none => a.whites)
      else a.whites := by
  rw [stepTag.eq_def]
  rcases lookupD data tag with _ | v
  · by_cases h : attr = "whites" <;> simp [h]
  · by_cases h : attr = "tone_curve"
    · subst h; simp
    · simp only [h, if_false]
      rw [setField_whites]

lemma extractTags_whites (data : List (String × PyVal)) (a : LightroomAdjustments) :
    (applyTags data LR_TAGS a).whites =
      (match lookupD data "XMP:Whites2012" with
       | some v => some v
       | none => a.whites) := by
  simp only [applyTags, LR_TAGS, List.foldl_cons, List.foldl_nil]
  simp only [stepTag_whites]
  simp

lemma extract_ok_whites (p : String) (data : List (String × PyVal))
    (rest : List (List (String × PyVal))) :
    (extract p (.ok (data :: rest))).whites = lookupD data "XMP:Whites2012" := by
  rw [show extract p (.ok (data :: rest)) =
    extract_hsl_adjustments data (applyTags data LR_TAGS (baseAdjustments p)) from rfl]
  obtain ⟨hd, sd, ld, heq⟩ :=
    hslFold_shape data hslColors (applyTags data LR_TAGS (baseAdjustments p))
  rw [extract_hsl_adjustments, heq]
  show (applyTags data LR_TAGS (baseAdjustments p)).whites = _
  rw [extractTags_whites]
  rcases lookupD data "XMP:Whites2012" with _ | v <;> rfl

lemma setField_blacks (a : LightroomAdjustments) (attr : String) (v : PyVal) :
    (setField a attr v).blacks =
      if attr = "blacks" then some v else a.blacks := by
  rw [setField.eq_def]
  split <;> simp_all

lemma stepTag_blacks (data : List (String × PyVal)) (a : LightroomAdjustments)
    (tag attr : String) :
    (stepTag data a (tag, attr)).blacks =
      if attr = "blacks" then
        (match lookupD data tag with | some v => some v | none => a.blacks)
      else a.blacks := by
  rw [stepTag.eq_def]
  rcases lookupD data tag with _ | v
  · by_cases h : attr = "blacks" <;> simp [h]
  · by_cases h : attr = "tone_curve"
    · subst h; simp
    · simp only [h, if_false]
      rw [setField_blacks]

lemma extractTags_blacks (data : List (String × PyVal)) (a : LightroomAdjustments) :
    (applyTags data LR_TAGS a).blacks =
      (match lookupD data "XMP:Blacks2012" with
       | some v => some v
       | none => a.blacks) := by
  simp only [applyTags, LR_TAGS, List.foldl_cons, List.foldl_nil]
  simp only [stepTag_blacks]
  simp

lemma extract_ok_blacks (p : String) (data : List (String × PyVal))
    (rest : List (List (String × PyVal))) :
    (extract p (.ok (data :: rest))).blacks = lookupD data "XMP:Blacks2012" := by
  rw [show extract p (.ok (data :: rest)) =
    extract_hsl_adjustments data (applyTags data LR_TAGS (baseAdjustments p)) from rfl]
  obtain ⟨hd, sd, ld, heq⟩ :=
    hslFold_shape data hslColors (applyTags data LR_TAGS (baseAdjustments p))
  rw [extract_hsl_adjustments, heq]
  show (applyTags data LR_TAGS (baseAdjustments p)).blacks = _
  rw [extractTags_blacks]
  rcases lookupD data "XMP:Blacks2012" with _ | v <;> rfl

lemma setField_temperature (a : LightroomAdjustments) (attr : String) (v : PyVal) :
    (setField a attr v).temperature =
      if attr = "temperature" then some v else a.temperature := by
  rw [setField.eq_def]
  split <;> simp_all

lemma stepTag_temperature (data : List (String × PyVal)) (a : LightroomAdjustments)
    (tag attr : String) :
    (stepTag data a (tag, attr)).temperature =
      if attr = "temperature" then
        (match lookupD data tag with | some v => some v | none => a.temperature)
      else a.temperature := by
  rw [stepTag.eq_def]
  rcases lookupD data tag with _ | v
  · by_cases h : attr = "temperature" <;> simp [h]
  · by_cases h : attr = "tone_curve"
    · subst h; simp
    · simp only [h, if_false]
      rw [setField_temperature]

lemma extractTags_temperature (data : List (String × PyVal)) (a : LightroomAdjustments) :
    (applyTags data LR_TAGS a).temperature =
      (match lookupD data "XMP:Temperature" with
       | some v => some v
       | none => a.temperature) := by
  simp only [applyTags, LR_TAGS, List.foldl_cons, List.foldl_nil]
  simp only [stepTag_temperature]
  simp

lemma extract_ok_temperature (p : String) (data : List (String × PyVal))
    (rest : List (List (String × PyVal))) :
    (extract p (.ok (data :: rest))).temperature = lookupD data "XMP:Temperature" := by
  rw [show extract p (.ok (data :: rest)) =
    extract_hsl_adjustments data (applyTags data LR_TAGS (baseAdjustments p)) from rfl]
  obtain ⟨hd, sd, ld, heq⟩ :=
    hslFold_shape data hslColors (applyTags data LR_TAGS (baseAdjustments p))
  rw [extract_hsl_adjustments, heq]
  show (applyTags data LR_TAGS (baseAdjustments p)).temperature = _
  rw [extractTags_temperature]
  rcases lookupD data "XMP:Temperature" with _ | v <;> rfl

lemma setField_tint (a : LightroomAdjustments) (attr : String) (v : PyVal) :
    (setField a attr v).tint =
      if attr = "tint" then some v else a.tint := by
  rw [setField.eq_def]
  split <;> simp_all

lemma stepTag_tint (data : List (String × PyVal)) (a : LightroomAdjustments)
    (tag attr : String) :
    (stepTag data a (tag, attr)).tint =
      if attr = "tint" then
        (match lookupD data tag with | some v => some v | none => a.tint)
      else a.tint := by
  rw [stepTag.eq_def]
  rcases lookupD data tag with _ | v
  · by_cases h : attr = "tint" <;> simp [h]
  · by_cases h : attr = "tone_curve"
    · subst h; simp
    · simp only [h, if_false]
      rw [setField_tint]

lemma extractTags_tint (data : List (String × PyVal)) (a : LightroomAdjustments) :
    (applyTags data LR_TAGS a).tint =
      (match lookupD data "XMP:Tint" with
       | some v => some v
       | none => a.tint) := by
  simp only [applyTags, LR_TAGS, List.foldl_cons, List.foldl_nil]
  simp only [stepTag_tint]
  simp

lemma extract_ok_tint (p : String) (data : List (String × PyVal))
    (rest : List (List (String × PyVal))) :
    (extract p (.ok (data :: rest))).tint = lookupD data "XMP:Tint" := by
  rw [show extract p (.ok (data :: rest)) =
    extract_hsl_adjustments data (applyTags data LR_TAGS (baseAdjustments p)) from rfl]
  obtain ⟨hd, sd, ld, heq⟩ :=
    hslFold_shape data hslColors (applyTags data LR_TAGS (baseAdjustments p))
  rw [extract_hsl_adjustments, heq]
  show (applyTags data LR_TAGS (baseAdjustments p)).tint = _
  rw [extractTags_tint]
  rcases lookupD data "XMP:Tint" with _ | v <;> rfl

lemma setField_vibrance (a : LightroomAdjustments) (attr : String) (v : PyVal) :
    (setField a attr v).vibrance =
      if attr = "vibrance" then some v else a.vibrance := by
  rw [setField.eq_def]
  split <;> simp_all

lemma stepTag_vibrance (data : List (String × PyVal)) (a : LightroomAdjustments)
    (tag attr : String) :
    (stepTag data a (tag, attr)).vibrance =
      if attr = "vibrance" then
        (match lookupD data tag with | some v => some v | none => a.vibrance)
      else a.vibrance := by
  rw [stepTag.eq_def]
  rcases lookupD data tag with _ | v
  · by_cases h : attr = "vibrance" <;> simp [h]
  · by_cases h : attr = "tone_curve"
    · subst h; simp
    · simp only [h, if_false]
      rw [setField_vibrance]

lemma extractTags_vibrance (data : List (String × PyVal)) (a : LightroomAdjustments) :
    (applyTags data LR_TAGS a).vibrance =
      (match lookupD data "XMP:Vibrance" with
       | some v => some v
       | none => a.vibrance) := by
  simp only [applyTags, LR_TAGS, List.foldl_cons, List.foldl_nil]
  simp only [stepTag_vibrance]
  simp

lemma extract_ok_vibrance (p : String) (data : List (String × PyVal))
    (rest : List (List (String × PyVal))) :
    (extract p (.ok (data :: rest))).vibrance = lookupD data "XMP:Vibrance" := by
  rw [show extract p (.ok (data :: rest)) =
    extract_hsl_adjustments data (applyTags data LR_TAGS (baseAdjustments p)) from rfl]
  obtain ⟨hd, sd, ld, heq⟩ :=
    hslFold_shape data hslColors (applyTags data LR_TAGS (baseAdjustments p))
  rw [extract_hsl_adjustments, heq]
  show (applyTags data LR_TAGS (baseAdjustments p)).vibrance = _
  rw [extractTags_vibrance]
  rcases lookupD data "XMP:Vibrance" with _ | v <;> rfl

lemma setField_saturation (a : LightroomAdjustments) (attr : String) (v : PyVal) :
    (setField a attr v).saturation =
      if attr = "saturation" then some v else a.saturation := by
  rw [setField.eq_def]
  split <;> simp_all

lemma stepTag_saturation (data : List (String × PyVal)) (a : LightroomAdjustments)
    (tag attr : String) :
    (stepTag data a (tag, attr)).saturation =
      if attr = "saturation" then
        (match lookupD data tag with | some v => some v | none => a.saturation)
      else a.saturation := by
  rw [stepTag.eq_def]
  rcases lookupD data tag with _ | v
  · by_cases h : attr = "saturation" <;> simp [h]
  · by_cases h : attr = "tone_curve"
    · subst h; simp
    · simp only [h, if_false]
      rw [setField_saturation]

lemma extractTags_saturation (data : List (String × PyVal)) (a : LightroomAdjustments) :
    (applyTags data LR_TAGS a).saturation =
      (match lookupD data "XMP:Saturation" with
       | some v => some v
       | none => a.saturation) := by
  simp only [applyTags, LR_TAGS, List.foldl_cons, List.foldl_nil]
  simp only [stepTag_saturation]
  simp

lemma extract_ok_saturation (p : String) (data : List (String × PyVal))
    (rest : List (List (String × PyVal))) :
    (extract p (.ok (data :: rest))).saturation = lookupD data "XMP:Saturation" := by
  rw [show extract p (.ok (data :: rest)) =
    extract_hsl_adjustments data (applyTags data LR_TAGS (baseAdjustments p)) from rfl]
  obtain ⟨hd, sd, ld, heq⟩ :=
    hslFold_shape data hslColors (applyTags data LR_TAGS (baseAdjustments p))
  rw [extract_hsl_adjustments, heq]
  show (applyTags data LR_TAGS (baseAdjustments p)).saturation = _
  rw [extractTags_saturation]
  rcases lookupD data "XMP:Saturation" with _ | v <;> rfl

lemma setField_clarity (a : LightroomAdjustments) (attr : String) (v : PyVal) :
    (setField a attr v).clarity =
      if attr = "clarity" then some v else a.clarity := by
  rw [setField.eq_def]
  split <;> simp_all

lemma stepTag_clarity (data : List (String × PyVal)) (a : LightroomAdjustments)
    (tag attr : String) :
    (stepTag data a (tag, attr)).clarity =
      if attr = "clarity" then
        (match lookupD data tag with | some v => some v | none => a.clarity)
      else a.clarity := by
  rw [stepTag.eq_def]
  rcases lookupD data tag with _ | v
  · by_cases h : attr = "clarity" <;> simp [h]
  · by_cases h : attr = "tone_curve"
    · subst h; simp
    · simp only [h, if_false]
      rw [setField_clarity]

lemma extractTags_clarity (data : List (String × PyVal)) (a : LightroomAdjustments) :
    (applyTags data LR_TAGS a).clarity =
      (match lookupD data "XMP:Clarity2012" with
       | some v => some v
       | none => a.clarity) := by
  simp only [applyTags, LR_TAGS, List.foldl_cons, List.foldl_nil]
  simp only [stepTag_clarity]
  simp

lemma extract_ok_clarity (p : String) (data : List (String × PyVal))
    (rest : List (List (String × PyVal))) :
    (extract p (.ok (data :: rest))).clarity = lookupD data "XMP:Clarity2012" := by
  rw [show extract p (.ok (data :: rest)) =
    extract_hsl_adjustments data (applyTags data LR_TAGS (baseAdjustments p)) from rfl]
  obtain ⟨hd, sd, ld, heq⟩ :=
    hslFold_shape data hslColors (applyTags data LR_TAGS (baseAdjustments p))
  rw [extract_hsl_adjustments, heq]
  show (applyTags data LR_TAGS (baseAdjustments p)).clarity = _
  rw [extractTags_clarity]
  rcases lookupD data "XMP:Clarity2012" with _ | v <;> rfl

lemma setField_dehaze (a : LightroomAdjustments) (attr : String) (v : PyVal) :
    (setField a attr v).dehaze =
      if attr = "dehaze" then some v else a.dehaze := by
  rw [setField.eq_def]
  split <;> simp_all

lemma stepTag_dehaze (data : List (String × PyVal)) (a : LightroomAdjustments)
    (tag attr : String) :
    (stepTag data a (tag, attr)).dehaze =
      if attr = "dehaze" then
        (match lookupD data tag with | some v => some v | none => a.dehaze)
      else a.dehaze := by
  rw [stepTag.eq_def]
  rcases lookupD data tag with _ | v
  · by_cases h : attr = "dehaze" <;> simp [h]
  · by_cases h : attr = "tone_curve"
    · subst h; simp
    · simp only [h, if_false]
      rw [setField_dehaze]

lemma extractTags_dehaze (data : List (String × PyVal)) (a : LightroomAdjustments) :
    (applyTags data LR_TAGS a).dehaze =
      (match lookupD data "XMP:Dehaze" with
       | some v => some v
       | none => a.dehaze) := by
  simp only [applyTags, LR_TAGS, List.foldl_cons, List.foldl_nil]
  simp only [stepTag_dehaze]
  simp

lemma extract_ok_dehaze (p : String) (data : List (String × PyVal))
    (rest : List (List (String × PyVal))) :
    (extract p (.ok (data :: rest))).dehaze = lookupD data "XMP:Dehaze" := by
  rw [show extract p (.ok (data :: rest)) =
    extract_hsl_adjustments data (applyTags data LR_TAGS (baseAdjustments p)) from rfl]
  obtain ⟨hd, sd, ld, heq⟩ :=
    hslFold_shape data hslColors (applyTags data LR_TAGS (baseAdjustments p))
  rw [extract_hsl_adjustments, heq]
  show (applyTags data LR_TAGS (baseAdjustments p)).dehaze = _
  rw [extractTags_dehaze]
  rcases lookupD data "XMP:Dehaze" with _ | v <;> rfl

lemma setField_texture (a : LightroomAdjustments) (attr : String) (v : PyVal) :
    (setField a attr v).texture =
      if attr = "texture" then some v else a.texture := by
  rw [setField.eq_def]
  split <;> simp_all

lemma stepTag_texture (data : List (String × PyVal)) (a : LightroomAdjustments)
    (tag attr : String) :
    (stepTag data a (tag, attr)).texture =
      if attr = "texture" then
        (match lookupD data tag with | some v => some v | none => a.texture)
      else a.texture := by
  rw [stepTag.eq_def]
  rcases lookupD data tag with _ | v
  · by_cases h : attr = "texture" <;> simp [h]
  · by_cases h : attr = "tone_curve"
    · subst h; simp
    · simp only [h, if_false]
      rw [setField_texture]

lemma extractTags_texture (data : List (String × PyVal)) (a : LightroomAdjustments) :
    (applyTags data LR_TAGS a).texture =
      (match lookupD data "XMP:Texture" with
       | some v => some v
       | none => a.texture) := by
  simp only [applyTags, LR_TAGS, List.foldl_cons, List.foldl_nil]
  simp only [stepTag_texture]
  simp

lemma extract_ok_texture (p : String) (data : List (String × PyVal))
    (rest : List (List (String × PyVal))) :
    (extract p (.ok (data :: rest))).texture = lookupD data "XMP:Texture" := by
  rw [show extract p (.ok (data :: rest)) =
    extract_hsl_adjustments data (applyTags data LR_TAGS (baseAdjustments p)) from rfl]
  obtain ⟨hd, sd, ld, heq⟩ :=
    hslFold_shape data hslColors (applyTags data LR_TAGS (baseAdjustments p))
  rw [extract_hsl_adjustments, heq]
  show (applyTags data LR_TAGS (baseAdjustments p)).texture = _
  rw [extractTags_texture]
  rcases lookupD data "XMP:Texture" with _ | v <;> rfl

lemma setField_sharpness (a : LightroomAdjustments) (attr : String) (v : PyVal) :
    (setField a attr v).sharpness =
      if attr = "sharpness" then some v else a.sharpness := by
  rw [setField.eq_def]
  split <;> simp_all

lemma stepTag_sharpness (data : List (String × PyVal)) (a : LightroomAdjustments)
    (tag attr : String) :
    (stepTag data a (tag, attr)).sharpness =
      if attr = "sharpness" then
        (match lookupD data tag with | some v => some v | none => a.sharpness)
      else a.sharpness := by
  rw [stepTag.eq_def]
  rcases lookupD data tag with _ | v
  · by_cases h : attr = "sharpness" <;> simp [h]
  · by_cases h : attr = "tone_curve"
    · subst h; simp
    · simp only [h, if_false]
      rw [setField_sharpness]

lemma extractTags_sharpness (data : List (String × PyVal)) (a : LightroomAdjustments) :
    (applyTags data LR_TAGS a).sharpness =
      (match lookupD data "XMP:Sharpness" with
       | some v => some v
       | none => a.sharpness) := by
  simp only [applyTags, LR_TAGS, List.foldl_cons, List.foldl_nil]
  simp only [stepTag_sharpness]
  simp

lemma extract_ok_sharpness (p : String) (data : List (String × PyVal))
    (rest : List (List (String × PyVal))) :
    (extract p (.ok (data :: rest))).sharpness = lookupD data "XMP:Sharpness" := by
  rw [show extract p (.ok (data :: rest)) =
    extract_hsl_adjustments data (applyTags data LR_TAGS (baseAdjustments p)) from rfl]
  obtain ⟨hd, sd, ld, heq⟩ :=
    hslFold_shape data hslColors (applyTags data LR_TAGS (baseAdjustments p))
  rw [extract_hsl_adjustments, heq]
  show (applyTags data LR_TAGS (baseAdjustments p)).sharpness = _
  rw [extractTags_sharpness]
  rcases lookupD data "XMP:Sharpness" with _ | v <;> rfl

lemma setField_luminance_noise_reduction (a : LightroomAdjustments) (attr : String) (v : PyVal) :
    (setField a attr v).luminance_noise_reduction =
      if attr = "luminance_noise_reduction" then some v else a.luminance_noise_reduction := by
  rw [setField.eq_def]
  split <;> simp_all

lemma stepTag_luminance_noise_reduction (data : List (String × PyVal)) (a : LightroomAdjustments)
    (tag attr : String) :
    (stepTag data a (tag, attr)).luminance_noise_reduction =
      if attr = "luminance_noise_reduction" then
        (match lookupD data tag with | some v => some v | none => a.luminance_noise_reduction)
      else a.luminance_noise_reduction := by
  rw [stepTag.eq_def]
  rcases lookupD data tag with _ | v
  · by_cases h : attr = "luminance_noise_reduction" <;> simp [h]
  · by_cases h : attr = "tone_curve"
    · subst h; simp
    · simp only [h, if_false]
      rw [setField_luminance_noise_reduction]

lemma extractTags_luminance_noise_reduction (data : List (String × PyVal)) (a : LightroomAdjustments) :
    (applyTags data LR_TAGS a).luminance_noise_reduction =
      (match lookupD data "XMP:LuminanceSmoothing" with
       | some v => some v
       | none => a.luminance_noise_reduction) := by
  simp only [applyTags, LR_TAGS, List.foldl_cons, List.foldl_nil]
  simp only [stepTag_luminance_noise_reduction]
  simp

lemma extract_ok_luminance_noise_reduction (p : String) (data : List (String × PyVal))
    (rest : List (List (String × PyVal))) :
    (extract p (.ok (data :: rest))).luminance_noise_reduction = lookupD data "XMP:LuminanceSmoothing" := by
  rw [show extract p (.ok (data :: rest)) =
    extract_hsl_adjustments data (applyTags data LR_TAGS (baseAdjustments p)) from rfl]
  obtain ⟨hd, sd, ld, heq⟩ :=
    hslFold_shape data hslColors (applyTags data LR_TAGS (baseAdjustments p))
  rw [extract_hsl_adjustments, heq]
  show (applyTags data LR_TAGS (baseAdjustments p)).luminance_noise_reduction = _
  rw [extractTags_luminance_noise_reduction]
  rcases lookupD data "XMP:LuminanceSmoothing" with _ | v <;> rfl

lemma setField_color_noise_reduction (a : LightroomAdjustments) (attr : String) (v : PyVal) :
    (setField a attr v).color_noise_reduction =
      if attr = "color_noise_reduction" then some v else a.color_noise_reduction := by
  rw [setField.eq_def]
  split <;> simp_all

lemma stepTag_color_noise_reduction (data : List (String × PyVal)) (a : LightroomAdjustments)
    (tag attr : String) :
    (stepTag data a (tag, attr)).color_noise_reduction =
      if attr = "color_noise_reduction" then
        (match lookupD data tag with | some v => some v | none => a.color_noise_reduction)
      else a.color_noise_reduction := by
  rw [stepTag.eq_def]
  rcases lookupD data tag with _ | v
  · by_cases h : attr = "color_noise_reduction" <;> simp [h]
  · by_cases h : attr = "tone_curve"
    · subst h; simp
    · simp only [h, if_false]
      rw [setField_color_noise_reduction]

lemma extractTags_color_noise_reduction (data : List (String × PyVal)) (a : LightroomAdjustments) :
    (applyTags data LR_TAGS a).color_noise_reduction =
      (match lookupD data "XMP:ColorNoiseReduction" with
       | some v => some v
       | none => a.color_noise_reduction) := by
  simp only [applyTags, LR_TAGS, List.foldl_cons, List.foldl_nil]
  simp only [stepTag_color_noise_reduction]
  simp

lemma extract_ok_color_noise_reduction (p : String) (data : List (String × PyVal))
    (rest : List (List (String × PyVal))) :
    (extract p (.ok (data :: rest))).color_noise_reduction = lookupD data "XMP:ColorNoiseReduction" := by
  rw [show extract p (.ok (data :: rest)) =
    extract_hsl_adjustments data (applyTags data LR_TAGS (baseAdjustments p)) from rfl]
  obtain ⟨hd, sd, ld, heq⟩ :=
    hslFold_shape data hslColors (applyTags data LR_TAGS (baseAdjustments p))
  rw [extract_hsl_adjustments, heq]
  show (applyTags data LR_TAGS (baseAdjustments p)).color_noise_reduction = _
  rw [extractTags_color_noise_reduction]
  rcases lookupD data "XMP:ColorNoiseReduction" with _ | v <;> rfl

lemma setField_vignette_amount (a : LightroomAdjustments) (attr : String) (v : PyVal) :
    (setField a attr v).vignette_amount =
      if attr = "vignette_amount" then some v else a.vignette_amount := by
  rw [setField.eq_def]
  split <;> simp_all

lemma stepTag_vignette_amount (data : List (String × PyVal)) (a : LightroomAdjustments)
    (tag attr : String) :
    (stepTag data a (tag, attr)).vignette_amount =
      if attr = "vignette_amount" then
        (match lookupD data tag with | some v => some v | none => a.vignette_amount)
      else a.vignette_amount := by
  rw [stepTag.eq_def]
  rcases lookupD data tag with _ | v
  · by_cases h : attr = "vignette_amount" <;> simp [h]
  · by_cases h : attr = "tone_curve"
    · subst h; simp
    · simp only [h, if_false]
      rw [setField_vignette_amount]

lemma extractTags_vignette_amount (data : List (String × PyVal)) (a : LightroomAdjustments) :
    (applyTags data LR_TAGS a).vignette_amount =
      (match lookupD data "XMP:PostCropVignetteAmount" with
       | some v => some v
       | none => a.vignette_amount) := by
  simp only [applyTags, LR_TAGS, List.foldl_cons, List.foldl_nil]
  simp only [stepTag_vignette_amount]
  simp

lemma extract_ok_vignette_amount (p : String) (data : List (String × PyVal))
    (rest : List (List (String × PyVal))) :
    (extract p (.ok (data :: rest))).vignette_amount = lookupD data "XMP:PostCropVignetteAmount" := by
  rw [show extract p (.ok (data :: rest)) =
    extract_hsl_adjustments data (applyTags data LR_TAGS (baseAdjustments p)) from rfl]
  obtain ⟨hd, sd, ld, heq⟩ :=
    hslFold_shape data hslColors (applyTags data LR_TAGS (baseAdjustments p))
  rw [extract_hsl_adjustments, heq]
  show (applyTags data LR_TAGS (baseAdjustments p)).vignette_amount = _
  rw [extractTags_vignette_amount]
  rcases lookupD data "XMP:PostCropVignetteAmount" with _ | v <;> rfl

lemma setField_grain_amount (a : LightroomAdjustments) (attr : String) (v : PyVal) :
    (setField a attr v).grain_amount =
      if attr = "grain_amount" then some v else a.grain_amount := by
  rw [setField.eq_def]
  split <;> simp_all

lemma stepTag_grain_amount (data : List (String × PyVal)) (a : LightroomAdjustments)
    (tag attr : String) :
    (stepTag data a (tag, attr)).grain_amount =
      if attr = "grain_amount" then
        (match lookupD data tag with | some v => some v | none => a.grain_amount)
      else a.grain_amount := by
  rw [stepTag.eq_def]
  rcases lookupD data tag with _ | v
  · by_cases h : attr = "grain_amount" <;> simp [h]
  · by_cases h : attr = "tone_curve"
    · subst h; simp
    · simp only [h, if_false]
      rw [setField_grain_amount]

lemma extractTags_grain_amount (data : List (String × PyVal)) (a : LightroomAdjustments) :
    (applyTags data LR_TAGS a).grain_amount =
      (match lookupD data "XMP:GrainAmount" with
       | some v => some v
       | none => a.grain_amount) := by
  simp only [applyTags, LR_TAGS, List.foldl_cons, List.foldl_nil]
  simp only [stepTag_grain_amount]
  simp

lemma extract_ok_grain_amount (p : String) (data : List (String × PyVal))
    (rest : List (List (String × PyVal))) :
    (extract p (.ok (data :: rest))).grain_amount = lookupD data "XMP:GrainAmount" := by
  rw [show extract p (.ok (data :: rest)) =
    extract_hsl_adjustments data (applyTags data LR_TAGS (baseAdjustments p)) from rfl]
  obtain ⟨hd, sd, ld, heq⟩ :=
    hslFold_shape data hslColors (applyTags data LR_TAGS (baseAdjustments p))
  rw [extract_hsl_adjustments, heq]
  show (applyTags data LR_TAGS (baseAdjustments p)).grain_amount = _
  rw [extractTags_grain_amount]
  rcases lookupD data "XMP:GrainAmount" with _ | v <;> rfl

lemma setField_tone_curve_red (a : LightroomAdjustments) (attr : String) (v : PyVal) :
    (setField a attr v).tone_curve_red =
      if attr = "tone_curve_red" then some v else a.tone_curve_red := by
  rw [setField.eq_def]
  split <;> simp_all

lemma stepTag_tone_curve_red (data : List (String × PyVal)) (a : LightroomAdjustments)
    (tag attr : String) :
    (stepTag data a (tag, attr)).tone_curve_red =
      if attr = "tone_curve_red" then
        (match lookupD data tag with | some v => some v | none => a.tone_curve_red)
      else a.tone_curve_red := by
  rw [stepTag.eq_def]
  rcases lookupD data tag with _ | v
  · by_cases h : attr = "tone_curve_red" <;> simp [h]
  · by_cases h : attr = "tone_curve"
    · subst h; simp
    · simp only [h, if_false]
      rw [setField_tone_curve_red]

lemma extractTags_tone_curve_red (data : List (String × PyVal)) (a : LightroomAdjustments) :
    (applyTags data LR_TAGS a).tone_curve_red =
      (match lookupD data "XMP:ToneCurvePV2012Red" with
       | some v => some v
       | none => a.tone_curve_red) := by
  simp only [applyTags, LR_TAGS, List.foldl_cons, List.foldl_nil]
  simp only [stepTag_tone_curve_red]
  simp

lemma extract_ok_tone_curve_red (p : String) (data : List (String × PyVal))
    (rest : List (List (String × PyVal))) :
    (extract p (.ok (data :: rest))).tone_curve_red = lookupD data "XMP:ToneCurvePV2012Red" := by
  rw [show extract p (.ok (data :: rest)) =
    extract_hsl_adjustments data (applyTags data LR_TAGS (baseAdjustments p)) from rfl]
  obtain ⟨hd, sd, ld, heq⟩ :=
    hslFold_shape data hslColors (applyTags data LR_TAGS (baseAdjustments p))
  rw [extract_hsl_adjustments, heq]
  show (applyTags data LR_TAGS (baseAdjustments p)).tone_curve_red = _
  rw [extractTags_tone_curve_red]
  rcases lookupD data "XMP:ToneCurvePV2012Red" with _ | v <;> rfl

lemma setField_tone_curve_green (a : LightroomAdjustments) (attr : String) (v : PyVal) :
    (setField a attr v).tone_curve_green =
      if attr = "tone_curve_green" then some v else a.tone_curve_green := by
  rw [setField.eq_def]
  split <;> simp_all

lemma stepTag_tone_curve_green (data : List (String × PyVal)) (a : LightroomAdjustments)
    (tag attr : String) :
    (stepTag data a (tag, attr)).tone_curve_green =
      if attr = "tone_curve_green" then
        (match lookupD data tag with | some v => some v | none => a.tone_curve_green)
      else a.tone_curve_green := by
  rw [stepTag.eq_def]
  rcases lookupD data tag with _ | v
  · by_cases h : attr = "tone_curve_green" <;> simp [h]
  · by_cases h : attr = "tone_curve"
    · subst h; simp
    · simp only [h, if_false]
      rw [setField_tone_curve_green]

lemma extractTags_tone_curve_green (data : List (String × PyVal)) (a : LightroomAdjustments) :
    (applyTags data LR_TAGS a).tone_curve_green =
      (match lookupD data "XMP:ToneCurvePV2012Green" with
       | some v => some v
       | none => a.tone_curve_green) := by
  simp only [applyTags, LR_TAGS, List.foldl_cons, List.foldl_nil]
  simp only [stepTag_tone_curve_green]
  simp

lemma extract_ok_tone_curve_green (p : String) (data : List (String × PyVal))
    (rest : List (List (String × PyVal))) :
    (extract p (.ok (data :: rest))).tone_curve_green = lookupD data "XMP:ToneCurvePV2012Green" := by
  rw [show extract p (.ok (data :: rest)) =
    extract_hsl_adjustments data (applyTags data LR_TAGS (baseAdjustments p)) from rfl]
  obtain ⟨hd, sd, ld, heq⟩ :=
    hslFold_shape data hslColors (applyTags data LR_TAGS (baseAdjustments p))
  rw [extract_hsl_adjustments, heq]
  show (applyTags data LR_TAGS (baseAdjustments p)).tone_curve_green = _
  rw [extractTags_tone_curve_green]
  rcases lookupD data "XMP:ToneCurvePV2012Green" with _ | v <;> rfl

lemma setField_tone_curve_blue (a : LightroomAdjustments) (attr : String) (v : PyVal) :
    (setField a attr v).tone_curve_blue =
      if attr = "tone_curve_blue" then some v else a.tone_curve_blue := by
  rw [setField.eq_def]
  split <;> simp_all

lemma stepTag_tone_curve_blue (data : List (String × PyVal)) (a : LightroomAdjustments)
    (tag attr : String) :
    (stepTag data a (tag, attr)).tone_curve_blue =
      if attr = "tone_curve_blue" then
        (match lookupD data tag with | some v => some v | none => a.tone_curve_blue)
      else a.tone_curve_blue := by
  rw [stepTag.eq_def]
  rcases lookupD data tag with _ | v
  · by_cases h : attr = "tone_curve_blue" <;> simp [h]
  · by_cases h : attr = "tone_curve"
    · subst h; simp
    · simp only [h, if_false]
      rw [setField_tone_curve_blue]

lemma extractTags_tone_curve_blue (data : List (String × PyVal)) (a : LightroomAdjustments) :
    (applyTags data LR_TAGS a).tone_curve_blue =
      (match lookupD data "XMP:ToneCurvePV2012Blue" with
       | some v => some v
       | none => a.tone_curve_blue) := by
  simp only [applyTags, LR_TAGS, List.foldl_cons, List.foldl_nil]
  simp only [stepTag_tone_curve_blue]
  simp

lemma extract_ok_tone_curve_blue (p : String) (data : List (String × PyVal))
    (rest : List (List (String × PyVal))) :
    (extract p (.ok (data :: rest))).tone_curve_blue = lookupD data "XMP:ToneCurvePV2012Blue" := by
  rw [show extract p (.ok (data :: rest)) =
    extract_hsl_adjustments data (applyTags data LR_TAGS (baseAdjustments p)) from rfl]
  obtain ⟨hd, sd, ld, heq⟩ :=
    hslFold_shape data hslColors (applyTags data LR_TAGS (baseAdjustments p))
  rw [extract_hsl_adjustments, heq]
  show (applyTags data LR_TAGS (baseAdjustments p)).tone_curve_blue = _
  rw [extractTags_tone_curve_blue]
  rcases lookupD data "XMP:ToneCurvePV2012Blue" with _ | v <;> rfl

lemma extractTags_tone_curve (data : List (String × PyVal)) (a : LightroomAdjustments) :
    (applyTags data LR_TAGS a).tone_curve =
      (match lookupD data "XMP:ToneCurvePV2012" with
       | some v => parse_tone_curve (some v)
       | none => a.tone_curve) := by
  simp only [applyTags, LR_TAGS, List.foldl_cons, List.foldl_nil]
  simp only [stepTag_tone_curve]
  simp

lemma extract_ok_tone_curve (p : String) (data : List (String × PyVal))
    (rest : List (List (String × PyVal))) :
    (extract p (.ok (data :: rest))).tone_curve =
      parse_tone_curve (lookupD data "XMP:ToneCurvePV2012") := by
  rw [show extract p (.ok (data :: rest)) =
    extract_hsl_adjustments data (applyTags data LR_TAGS (baseAdjustments p)) from rfl]
  obtain ⟨hd, sd, ld, heq⟩ :=
    hslFold_shape data hslColors (applyTags data LR_TAGS (baseAdjustments p))
  rw [extract_hsl_adjustments, heq]
  show (applyTags data LR_TAGS (baseAdjustments p)).tone_curve = _
  rw [extractTags_tone_curve]
  rcases lookupD data "XMP:ToneCurvePV2012" with _ | v <;> rfl


/-! ## Lemmas: looking up a tag in the exported mapping -/

lemma lookupD_attribEntry_skip (key k : String) (o : Option PyVal)
    (rest : List (String × PyVal)) (h : ¬("XMP:" ++ key) = k) :
    lookupD ((attribEntry key o).map (fun p => ("XMP:" ++ p.1, PyVal.str p.2)) ++ rest) k =
      lookupD rest k := by
  cases o <;> simp [attribEntry, lookupD, h]

lemma lookupD_attribEntry_take (key k : String) (o : Option PyVal)
    (rest : List (String × PyVal)) (h : ("XMP:" ++ key) = k) :
    lookupD ((attribEntry key o).map (fun p => ("XMP:" ++ p.1, PyVal.str p.2)) ++ rest) k =
      (match o with
       | some v => some (PyVal.str (formatValue v))
       | none => lookupD rest k) := by
  cases o <;> simp [attribEntry, lookupD, h]

lemma lookupD_hslEntry_skip (key k : String) (o : Option PyVal)
    (rest : List (String × PyVal)) (h : ¬("XMP:" ++ key) = k) :
    lookupD ((hslAttribEntry key o).map (fun p => ("XMP:" ++ p.1, PyVal.str p.2)) ++ rest) k =
      lookupD rest k := by
  cases o <;> simp [hslAttribEntry, lookupD, h]

lemma lookupD_curvePart_ne (x : LightroomAdjustments) (k : String)
    (h : ¬("XMP:ToneCurvePV2012" = k)) :
    lookupD (match x.tone_curve with
      | some (p :: ps) => [("XMP:ToneCurvePV2012", PyVal.vlist (toneCurveItems (p :: ps)))]
      | _ => []) k = none := by
  rcases x.tone_curve with _ | (_ | ⟨p, ps⟩) <;> simp [lookupD, h]

lemma lookupExported_contrast (x : LightroomAdjustments) :
    lookupD (exportedTagMapping x) "XMP:Contrast2012" =
      x.contrast.map (fun v => PyVal.str (formatValue v)) := by
  rw [exportedTagMapping, add_adjustments_to_attribs]
  simp only [List.map_append, List.append_assoc]
  simp [lookupD_attribEntry_skip, lookupD_attribEntry_take]
  rcases hx : x.contrast with _ | v
  · simp only [add_hsl_adjustments, hslColors]
    simp [lookupD_hslEntry_skip, lookupD_curvePart_ne, lookupD]
  · simp

lemma lookupExported_exposure (x : LightroomAdjustments) :
    lookupD (exportedTagMapping x) "XMP:Exposure2012" =
      x.exposure.map (fun v => PyVal.str (formatValue v)) := by
  rw [exportedTagMapping, add_adjustments_to_attribs]
  simp only [List.map_append, List.append_assoc]
  simp [lookupD_attribEntry_skip, lookupD_attribEntry_take]
  rcases hx : x.exposure with _ | v
  · simp only [add_hsl_adjustments, hslColors]
    simp [lookupD_hslEntry_skip, lookupD_curvePart_ne, lookupD]
  · simp

lemma lookupExported_highlights (x : LightroomAdjustments) :
    lookupD (exportedTagMapping x) "XMP:Highlights2012" =
      x.highlights.map (fun v => PyVal.str (formatValue v)) := by
  rw [exportedTagMapping, add_adjustments_to_attribs]
  simp only [List.map_append, List.append_assoc]
  simp [lookupD_attribEntry_skip, lookupD_attribEntry_take]
  rcases hx : x.highlights with _ | v
  · simp only [add_hsl_adjustments, hslColors]
    simp [lookupD_hslEntry_skip, lookupD_curvePart_ne, lookupD]
  · simp

lemma lookupExported_shadows (x : LightroomAdjustments) :
    lookupD (exportedTagMapping x) "XMP:Shadows2012" =
      x.shadows.map (fun v => PyVal.str (formatValue v)) := by
  rw [exportedTagMapping, add_adjustments_to_attribs]
  simp only [List.map_append, List.append_assoc]
  simp [lookupD_attribEntry_skip, lookupD_attribEntry_take]
  rcases hx : x.shadows with _ | v
  · simp only [add_hsl_adjustments, hslColors]
    simp [lookupD_hslEntry_skip, lookupD_curvePart_ne, lookupD]
  · simp

lemma lookupExported_whites (x : LightroomAdjustments) :
    lookupD (exportedTagMapping x) "XMP:Whites2012" =
      x.whites.map (fun v => PyVal.str (formatValue v)) := by
  rw [exportedTagMapping, add_adjustments_to_attribs]
  simp only [List.map_append, List.append_assoc]
  simp [lookupD_attribEntry_skip, lookupD_attribEntry_take]
  rcases hx : x.whites with _ | v
  · simp only [add_hsl_adjustments, hslColors]
    simp [lookupD_hslEntry_skip, lookupD_curvePart_ne, lookupD]
  · simp

lemma lookupExported_blacks (x : LightroomAdjustments) :
    lookupD (exportedTagMapping x) "XMP:Blacks2012" =
      x.blacks.map (fun v => PyVal.str (formatValue v)) := by
  rw [exportedTagMapping, add_adjustments_to_attribs]
  simp only [List.map_append, List.append_assoc]
  simp [lookupD_attribEntry_skip, lookupD_attribEntry_take]
  rcases hx : x.blacks with _ | v
  · simp only [add_hsl_adjustments, hslColors]
    simp [lookupD_hslEntry_skip, lookupD_curvePart_ne, lookupD]
  · simp

lemma lookupExported_temperature (x : LightroomAdjustments) :
    lookupD (exportedTagMapping x) "XMP:Temperature" =
      x.temperature.map (fun v => PyVal.str (formatValue v)) := by
  rw [exportedTagMapping, add_adjustments_to_attribs]
  simp only [List.map_append, List.append_assoc]
  simp [lookupD_attribEntry_skip, lookupD_attribEntry_take]
  rcases hx : x.temperature with _ | v
  · simp only [add_hsl_adjustments, hslColors]
    simp [lookupD_hslEntry_skip, lookupD_curvePart_ne, lookupD]
  · simp

lemma lookupExported_tint (x : LightroomAdjustments) :
    lookupD (exportedTagMapping x) "XMP:Tint" =
      x.tint.map (fun v => PyVal.str (formatValue v)) := by
  rw [exportedTagMapping, add_adjustments_to_attribs]
  simp only [List.map_append, List.append_assoc]
  simp [lookupD_attribEntry_skip, lookupD_attribEntry_take]
  rcases hx : x.tint with _ | v
  · simp only [add_hsl_adjustments, hslColors]
    simp [lookupD_hslEntry_skip, lookupD_curvePart_ne, lookupD]
  · simp

lemma lookupExported_vibrance (x : LightroomAdjustments) :
    lookupD (exportedTagMapping x) "XMP:Vibrance" =
      x.vibrance.map (fun v => PyVal.str (formatValue v)) := by
  rw [exportedTagMapping, add_adjustments_to_attribs]
  simp only [List.map_append, List.append_assoc]
  simp [lookupD_attribEntry_skip, lookupD_attribEntry_take]
  rcases hx : x.vibrance with _ | v
  · simp only [add_hsl_adjustments, hslColors]
    simp [lookupD_hslEntry_skip, lookupD_curvePart_ne, lookupD]
  · simp

lemma lookupExported_saturation (x : LightroomAdjustments) :
    lookupD (exportedTagMapping x) "XMP:Saturation" =
      x.saturation.map (fun v => PyVal.str (formatValue v)) := by
  rw [exportedTagMapping, add_adjustments_to_attribs]
  simp only [List.map_append, List.append_assoc]
  simp [lookupD_attribEntry_skip, lookupD_attribEntry_take]
  rcases hx : x.saturation with _ | v
  · simp only [add_hsl_adjustments, hslColors]
    simp [lookupD_hslEntry_skip, lookupD_curvePart_ne, lookupD]
  · simp

lemma lookupExported_clarity (x : LightroomAdjustments) :
    lookupD (exportedTagMapping x) "XMP:Clarity2012" =
      x.clarity.map (fun v => PyVal.str (formatValue v)) := by
  rw [exportedTagMapping, add_adjustments_to_attribs]
  simp only [List.map_append, List.append_assoc]
  simp [lookupD_attribEntry_skip, lookupD_attribEntry_take]
  rcases hx : x.clarity with _ | v
  · simp only [add_hsl_adjustments, hslColors]
    simp [lookupD_hslEntry_skip, lookupD_curvePart_ne, lookupD]
  · simp

lemma lookupExported_dehaze (x : LightroomAdjustments) :
    lookupD (exportedTagMapping x) "XMP:Dehaze" =
      x.dehaze.map (fun v => PyVal.str (formatValue v)) := by
  rw [exportedTagMapping, add_adjustments_to_attribs]
  simp only [List.map_append, List.append_assoc]
  simp [lookupD_attribEntry_skip, lookupD_attribEntry_take]
  rcases hx : x.dehaze with _ | v
  · simp only [add_hsl_adjustments, hslColors]
    simp [lookupD_hslEntry_skip, lookupD_curvePart_ne, lookupD]
  · simp

lemma lookupExported_texture (x : LightroomAdjustments) :
    lookupD (exportedTagMapping x) "XMP:Texture" =
      x.texture.map (fun v => PyVal.str (formatValue v)) := by
  rw [exportedTagMapping, add_adjustments_to_attribs]
  simp only [List.map_append, List.append_assoc]
  simp [lookupD_attribEntry_skip, lookupD_attribEntry_take]
  rcases hx : x.texture with _ | v
  · simp only [add_hsl_adjustments, hslColors]
    simp [lookupD_hslEntry_skip, lookupD_curvePart_ne, lookupD]
  · simp

lemma lookupExported_sharpness (x : LightroomAdjustments) :
    lookupD (exportedTagMapping x) "XMP:Sharpness" =
      x.sharpness.map (fun v => PyVal.str (formatValue v)) := by
  rw [exportedTagMapping, add_adjustments_to_attribs]
  simp only [List.map_append, List.append_assoc]
  simp [lookupD_attribEntry_skip, lookupD_attribEntry_take]
  rcases hx : x.sharpness with _ | v
  · simp only [add_hsl_adjustments, hslColors]
    simp [lookupD_hslEntry_skip, lookupD_curvePart_ne, lookupD]
  · simp

lemma lookupExported_luminance_noise_reduction (x : LightroomAdjustments) :
    lookupD (exportedTagMapping x) "XMP:LuminanceSmoothing" =
      x.luminance_noise_reduction.map (fun v => PyVal.str (formatValue v)) := by
  rw [exportedTagMapping, add_adjustments_to_attribs]
  simp only [List.map_append, List.append_assoc]
  simp [lookupD_attribEntry_skip, lookupD_attribEntry_take]
  rcases hx : x.luminance_noise_reduction with _ | v
  · simp only [add_hsl_adjustments, hslColors]
    simp [lookupD_hslEntry_skip, lookupD_curvePart_ne, lookupD]
  · simp

lemma lookupExported_color_noise_reduction (x : LightroomAdjustments) :
    lookupD (exportedTagMapping x) "XMP:ColorNoiseReduction" =
      x.color_noise_reduction.map (fun v => PyVal.str (formatValue v)) := by
  rw [exportedTagMapping, add_adjustments_to_attribs]
  simp only [List.map_append, List.append_assoc]
  simp [lookupD_attribEntry_skip, lookupD_attribEntry_take]
  rcases hx : x.color_noise_reduction with _ | v
  · simp only [add_hsl_adjustments, hslColors]
    simp [lookupD_hslEntry_skip, lookupD_curvePart_ne, lookupD]
  · simp

lemma lookupExported_vignette_amount (x : LightroomAdjustments) :
    lookupD (exportedTagMapping x) "XMP:PostCropVignetteAmount" =
      x.vignette_amount.map (fun v => PyVal.str (formatValue v)) := by
  rw [exportedTagMapping, add_adjustments_to_attribs]
  simp only [List.map_append, List.append_assoc]
  simp [lookupD_attribEntry_skip, lookupD_attribEntry_take]
  rcases hx : x.vignette_amount with _ | v
  · simp only [add_hsl_adjustments, hslColors]
    simp [lookupD_hslEntry_skip, lookupD_curvePart_ne, lookupD]
  · simp

lemma lookupExported_grain_amount (x : LightroomAdjustments) :
    lookupD (exportedTagMapping x) "XMP:GrainAmount" =
      x.grain_amount.map (fun v => PyVal.str (formatValue v)) := by
  rw [exportedTagMapping, add_adjustments_to_attribs]
  simp only [List.map_append, List.append_assoc]
  simp [lookupD_attribEntry_skip, lookupD_attribEntry_take]
  rcases hx : x.grain_amount with _ | v
  · simp only [add_hsl_adjustments, hslColors]
    simp [lookupD_hslEntry_skip, lookupD_curvePart_ne, lookupD]
  · simp

lemma lookupExported_tone_curve (x : LightroomAdjustments) :
    lookupD (exportedTagMapping x) "XMP:ToneCurvePV2012" =
      (match x.tone_curve with
       | some (p :: ps) => some (PyVal.vlist (toneCurveItems (p :: ps)))
       | _ => none) := by
  rw [exportedTagMapping, add_adjustments_to_attribs]
  simp only [List.map_append, List.append_assoc]
  simp [lookupD_attribEntry_skip]
  simp only [add_hsl_adjustments, hslColors]
  simp [lookupD_hslEntry_skip]
  rcases x.tone_curve with _ | (_ | ⟨p, ps⟩) <;> simp [lookupD]


/-! ## Lemmas: the exported tone-curve list never re-imports -/

/-- Each exported `li` text is `"x, y"`, which `int()` rejects, so the
codec discards the whole list. -/
lemma parse_exported_curve (p : Int × Int) (ps : ToneCurve) :
    parse_tone_curve (some (PyVal.vlist (toneCurveItems (p :: ps)))) = none := by
  rw [parse_tone_curve.eq_def]
  dsimp only
  have hfalsy : isFalsyVal (PyVal.vlist (toneCurveItems (p :: ps))) = false := by
    rw [isFalsyVal.eq_def]
    simp [toneCurveItems]
  rw [hfalsy]
  simp only [Bool.false_eq_true, if_false]
  rw [show toneCurveItems (p :: ps) =
    (.astr (intToChars p.1 ++ ',' :: ' ' :: intToChars p.2)) :: toneCurveItems ps
    from rfl]
  rw [List.mapM_cons]
  rw [show pyIntOfAtom (.astr (intToChars p.1 ++ ',' :: ' ' :: intToChars p.2)) =
    none from pyInt_pair_str p.1 p.2]
  simp

/-! ## Lemmas: float formatting shape -/

lemma twoDigitChars_digits (m : Nat) :
    (twoDigitChars m).length = 2 ∧ ∀ c ∈ twoDigitChars m, c.isDigit = true := by
  constructor
  · rfl
  · intro c hc
    rw [twoDigitChars] at hc
    rcases List.mem_cons.mp hc with h | h
    · exact h ▸ digitChar_isDigit _ (Nat.mod_lt _ (by omega))
    · simp at h
      exact h ▸ digitChar_isDigit _ (Nat.mod_lt _ (by omega))

/-- The formatted float always consists of an explicit sign, a nonempty
digit run, a decimal point and exactly two decimal digits. -/
lemma pyFormatFloat2_shape (q : ℚ) :
    ∃ ip d1 d2, pyFormatFloat2 q = (if 0 ≤ q then '+' else '-') :: (ip ++ '.' :: [d1, d2]) ∧
      ip ≠ [] ∧ (∀ c ∈ ip, c.isDigit = true) ∧ d1.isDigit = true ∧ d2.isDigit = true := by
  refine ⟨natToChars ((roundHalfEven (q * 100)).natAbs / 100),
    Nat.digitChar ((roundHalfEven (q * 100)).natAbs % 100 / 10 % 10),
    Nat.digitChar ((roundHalfEven (q * 100)).natAbs % 100 % 10),
    ?_, natToChars_ne_nil _, natToChars_digits _,
    digitChar_isDigit _ (Nat.mod_lt _ (by omega)),
    digitChar_isDigit _ (Nat.mod_lt _ (by omega))⟩
  rw [pyFormatFloat2]
  by_cases h : 0 ≤ q <;> simp [h, twoDigitChars]

/-! ## Lemmas: the implemented coordinate mapping in floor form -/

lemma gridX_eq_floor (x : Int) (h : 0 ≤ x) : gridX x = gridXfloor x := by
  rw [gridX, gridXfloor]
  have h1 : ((x : ℚ) / 255 * 58) = (((x * 58 : ℤ) : ℚ) / ((255 : ℕ) : ℚ)) := by
    push_cast
    ring
  rw [h1, Rat.floor_intCast_div_natCast, Int.tdiv_eq_ediv (by positivity) (by norm_num)]
  norm_num

lemma gridY_eq_floor (y : Int) (h : 0 ≤ y) : gridY y = gridYfloor y := by
  rw [gridY, gridYfloor]
  have h1 : ((y : ℚ) / 255 * 18) = (((y * 18 : ℤ) : ℚ) / ((255 : ℕ) : ℚ)) := by
    push_cast
    ring
  rw [h1, Rat.floor_intCast_div_natCast, Int.tdiv_eq_ediv (by positivity) (by norm_num)]
  norm_num

lemma drawSegments_congr (fx fy fx2 fy2 : Int → Int) :
    ∀ (segs : List ((Int × Int) × (Int × Int))),
      (∀ s ∈ segs, fx s.1.1 = fx2 s.1.1 ∧ fy s.1.2 = fy2 s.1.2 ∧
        fx s.2.1 = fx2 s.2.1 ∧ fy s.2.2 = fy2 s.2.2) →
      ∀ g, drawSegments fx fy g segs = drawSegments fx2 fy2 g segs := by
  intro segs
  induction segs with
  | nil => intro _ g; rfl
  | cons s rest ih =>
    intro h g
    rcases s with ⟨p, q⟩
    obtain ⟨h1, h2, h3, h4⟩ := h (p, q) (by simp)
    rw [drawSegments, drawSegments, h1, h2, h3, h4]
    rcases draw_line g (fx2 p.1) (fy2 p.2) (fx2 q.1) (fy2 q.2) with _ | g2
    · rfl
    · exact ih (fun s hs => h s (by simp [hs])) g2

lemma consecutivePairs_mem (points : List (Int × Int)) (s : (Int × Int) × (Int × Int))
    (h : s ∈ consecutivePairs points) : s.1 ∈ points ∧ s.2 ∈ points := by
  rw [consecutivePairs] at h
  rcases s with ⟨p, q⟩
  have h2 := List.of_mem_zip h
  exact ⟨h2.1, List.mem_of_mem_tail h2.2⟩

/-- On in-range points the implemented render agrees with its floor-form
description. -/
lemma render_eq_renderFloor (pts : ToneCurve)
    (h : ∀ p ∈ pts, 0 ≤ p.1 ∧ p.1 ≤ 255 ∧ 0 ≤ p.2 ∧ p.2 ≤ 255) :
    render (some pts) = renderFloor (some pts) := by
  rcases pts with _ | ⟨p, rest⟩
  · rfl
  · rw [render, renderFloor]
    rw [show renderWith gridX gridY (some (p :: rest)) =
      (drawSegments gridX gridY initGrid (consecutivePairs (p :: rest))).map
        RenderOut.grid from rfl]
    rw [show renderWith gridXfloor gridYfloor (some (p :: rest)) =
      (drawSegments gridXfloor gridYfloor initGrid (consecutivePairs (p :: rest))).map
        RenderOut.grid from rfl]
    rw [drawSegments_congr gridX gridY gridXfloor gridYfloor _ ?_ initGrid]
    intro s hs
    obtain ⟨hm1, hm2⟩ := consecutivePairs_mem _ s hs
    obtain ⟨ha1, _, ha2, _⟩ := h s.1 hm1
    obtain ⟨hb1, _, hb2, _⟩ := h s.2 hm2
    exact ⟨gridX_eq_floor _ ha1, gridY_eq_floor _ ha2,
      gridX_eq_floor _ hb1, gridY_eq_floor _ hb2⟩

/-! ## Final helpers for the claim statements -/

lemma mapM_eq_none_of_mem {α β : Type} (f : α → Option β) :
    ∀ l : List α, (∃ a ∈ l, f a = none) → l.mapM f = none := by
  intro l
  induction l with
  | nil =>
    rintro ⟨a, ha, _⟩
    simp at ha
  | cons a t ih =>
    rintro ⟨b, hb, hfb⟩
    rw [List.mapM_cons]
    rcases List.mem_cons.mp hb with rfl | hbt
    · rw [hfb]; rfl
    · rcases hfa : f a with _ | v
      · rfl
      · rw [ih ⟨b, hbt, hfb⟩]
        rfl

/-- Unfolding of the string branch of the codec for nonempty input. -/
lemma parse_str_unfold (s : List Char) (hs : s ≠ []) :
    parse_tone_curve (some (.str s)) =
      (match (splitOnComma s).mapM (fun t => pyInt (pyStrip t)) with
       | some values => if (pairUp values).isEmpty then none else some (pairUp values)
       | none => none) := by
  rw [show (PyVal.str s) = .atom (.astr s) from rfl, parse_tone_curve.eq_def]
  dsimp only
  rw [show isFalsyVal (.atom (.astr s)) = false from by
    rw [isFalsyVal.eq_def]; simp [hs]]
  simp only [Bool.false_eq_true, if_false]

lemma parse_str_of_bad_token (s : List Char)
    (h : ∃ t ∈ splitOnComma s, pyInt (pyStrip t) = none) :
    parse_tone_curve (some (.str s)) = none := by
  rcases hsnil : s with _ | ⟨c, cs⟩
  · decide
  · rw [← hsnil, parse_str_unfold s (by rw [hsnil]; simp),
      mapM_eq_none_of_mem _ _ h]

lemma parse_str_of_values (s : List Char) (values : List Int)
    (hm : (splitOnComma s).mapM (fun t => pyInt (pyStrip t)) = some values) :
    parse_tone_curve (some (.str s)) =
      (if (pairUp values).isEmpty then none else some (pairUp values)) := by
  have hs : s ≠ [] := by
    intro h2
    subst h2
    rw [show (splitOnComma ([] : List Char)).mapM (fun t => pyInt (pyStrip t)) = none
      from by decide] at hm
    exact absurd hm (by simp)
  rw [parse_str_unfold s hs, hm]

/-- Cell accessor used to compare two render results at one grid cell. -/
def cellAt (r : Option RenderOut) (y x : Int) : Option Char :=
  match r with
  | some (.grid g) => some (g y x)
  | _ => none

/-- Concrete input for the C3 counterexample. -/
def claim3Input : LightroomAdjustments :=
  { contrast := some (.int (-20)), tone_curve := some [(0, 0), (255, 255)] }

/-- Concrete malformed-scalar mapping for the C6 counterexample. -/
def claim6Data : List (String × PyVal) :=
  [("XMP:Contrast2012", .str "garbage".toList), ("XMP:Exposure2012", .int 1)]

/-- Concrete curve whose code/round-mapped renders differ (C8). -/
def claim8Input : ToneCurve := [(100, 10), (100, 250)]

/-- Concrete out-of-range curve whose code/clamped renders differ (C9). -/
def claim9Input : ToneCurve := [(1000, 128), (1100, 128)]

/-- The exporter's formatted string for the example float `3/2 = 1.5`:
Mathlib rationals do not reduce inside `decide`, so the arithmetic is
done by `norm_num` and only the final digit rendering by `decide`. -/
lemma formatValue_three_halves : formatValue (.float (3 / 2)) = "+1.50".toList := by
  rw [show formatValue (.float (3 / 2)) = pyFormatFloat2 (3 / 2) from rfl]
  simp only [pyFormatFloat2]
  have h1 : (3 / 2 : ℚ) * 100 = 150 := by norm_num
  rw [if_pos (show (0 : ℚ) ≤ 3 / 2 by norm_num), h1]
  have h2 : roundHalfEven 150 = 150 := by
    simp only [roundHalfEven]
    have hf : ⌊(150 : ℚ)⌋ = 150 := by
      rw [show (150 : ℚ) = ((150 : Int) : ℚ) by norm_num]
      exact Int.floor_intCast 150
    rw [hf]
    norm_num
  rw [h2]
  decide

lemma gridXround_100 : gridXround 100 = 24 := by
  rw [gridXround, round_eq]
  have h : ⌊(((100 : Int) : ℚ) / 255 * 58 + 1 / 2)⌋ = 23 := by
    rw [Int.floor_eq_iff]
    norm_num
  rw [h]
  decide

lemma gridYround_10 : gridYround 10 = 17 := by
  rw [gridYround, round_eq]
  have h : ⌊(((10 : Int) : ℚ) / 255 * 18 + 1 / 2)⌋ = 1 := by
    rw [Int.floor_eq_iff]
    norm_num
  rw [h]
  decide

lemma gridYround_250 : gridYround 250 = 0 := by
  rw [gridYround, round_eq]
  have h : ⌊(((250 : Int) : ℚ) / 255 * 18 + 1 / 2)⌋ = 18 := by
    rw [Int.floor_eq_iff]
    norm_num
  rw [h]
  decide

/-- The round-based render of the C8 input with the rational rounding
replaced by its literal integer values, so that the grid can be
evaluated by the kernel. -/
lemma renderRound_claim8 :
    renderRound (some claim8Input) =
      (drawSegments (fun x => if x = 100 then 24 else 0)
        (fun y => if y = 10 then 17 else 0) initGrid
        (consecutivePairs claim8Input)).map RenderOut.grid := by
  rw [show renderRound (some claim8Input) =
    (drawSegments gridXround gridYround initGrid
      (consecutivePairs claim8Input)).map RenderOut.grid from rfl]
  rw [drawSegments_congr gridXround gridYround
    (fun x => if x = 100 then 24 else 0) (fun y => if y = 10 then 17 else 0)
    (consecutivePairs claim8Input) ?_ initGrid]
  intro s hs
  rw [show consecutivePairs claim8Input = [((100, 10), (100, 250))] from rfl,
    List.mem_singleton] at hs
  subst hs
  refine ⟨?_, ?_, ?_, ?_⟩
  · rw [show (((100, 10), 100, 250) : (Int × Int) × (Int × Int)).1.1 = 100 from rfl,
      gridXround_100]
    decide
  · rw [show (((100, 10), 100, 250) : (Int × Int) × (Int × Int)).1.2 = 10 from rfl,
      gridYround_10]
    decide
  · rw [show (((100, 10), 100, 250) : (Int × Int) × (Int × Int)).2.1 = 100 from rfl,
      gridXround_100]
    decide
  · rw [show (((100, 10), 100, 250) : (Int × Int) × (Int × Int)).2.2 = 250 from rfl,
      gridYround_250]
    decide

/-! ## Claims -/

/-- C1 (first half fails on the empty curve): decoding the encoding of
the empty ToneCurve yields `None` ("no curve"), not a curve equal to
`ToneCurve(points=[])`. -/
theorem claim1_counterexample :
    parse_tone_curve (some (.str (toneCurveStr ([] : ToneCurve)))) ≠
      some ([] : ToneCurve) := by
  decide

/-- C1 (amended): for every nonempty ToneCurve with points in
[0,255]x[0,255], decoding the encoded string yields the curve back; and
for every comma-separated string with an even number of tokens, all
parsing as integers, encoding the decoded curve reproduces the numeric
token sequence of the string. -/
theorem claim1_codec_round_trip :
    (∀ pts : ToneCurve, pts ≠ [] →
      (∀ p ∈ pts, 0 ≤ p.1 ∧ p.1 ≤ 255 ∧ 0 ≤ p.2 ∧ p.2 ≤ 255) →
      parse_tone_curve (some (.str (toneCurveStr pts))) = some pts) ∧
    (∀ (s : List Char) (values : List Int),
      (splitOnComma s).length % 2 = 0 →
      (splitOnComma s).mapM (fun t => pyInt (pyStrip t)) = some values →
      ∃ pts, parse_tone_curve (some (.str s)) = some pts ∧
        (splitOnComma (toneCurveStr pts)).map (fun t => pyInt (pyStrip t)) =
          values.map some) := by
  constructor
  · intro pts hne _
    exact parse_toneCurveStr pts hne
  · intro s values heven hm
    have hmap := map_of_mapM_eq_some _ _ _ hm
    have hlen : (splitOnComma s).length = values.length := by
      have h2 := congrArg List.length hmap
      simpa using h2
    have htoknn : splitOnComma s ≠ [] := splitCommaAux_ne_nil s []
    have hlen2 : values.length % 2 = 0 := by omega
    have hvlen : 1 ≤ values.length := by
      rcases htok : splitOnComma s with _ | ⟨t, ts⟩
      · exact absurd htok htoknn
      · rw [htok] at hlen
        simp at hlen
        omega
    have hpnn : pairUp values ≠ [] := by
      intro h2
      have h3 := pairUp_length values
      rw [h2] at h3
      simp at h3
      omega
    refine ⟨pairUp values, ?_, ?_⟩
    · rw [parse_str_of_values s values hm]
      simp [hpnn]
    · have ht := tokens_toneCurveStr (pairUp values) hpnn [] (by intro c hc; simp at hc)
      rw [show splitCommaAux (toneCurveStr (pairUp values)) [] =
        splitOnComma (toneCurveStr (pairUp values)) from rfl] at ht
      rw [ht, flattenPairs_pairUp_even values hlen2]

/-- C1 witness: both halves instantiated on concrete inputs. -/
theorem claim1_witness :
    parse_tone_curve (some (.str (toneCurveStr [((0 : Int), (0 : Int)), (255, 255)]))) =
      some [((0 : Int), (0 : Int)), (255, 255)] ∧
    ∃ pts, parse_tone_curve (some (.str "10, 20".toList)) = some pts ∧
      (splitOnComma (toneCurveStr pts)).map (fun t => pyInt (pyStrip t)) =
        [(10 : Int), 20].map some :=
  ⟨claim1_codec_round_trip.1 _ (by decide) (by decide),
   claim1_codec_round_trip.2 "10, 20".toList [10, 20] (by decide) (by decide)⟩

/-- C2 (fails on a present-but-empty curve): `has_adjustments` is true
for `Adjustments(tone_curve=ToneCurve([]))` because `bool(dataclass)` is
always `True`, while the claim demands falsity when the curve has no
points. -/
theorem claim2_counterexample :
    ¬(has_adjustments { tone_curve := some ([] : ToneCurve) } = true ↔
      ((({ tone_curve := some ([] : ToneCurve) } :
          LightroomAdjustments).exposure ≠ none ∨
        ({ tone_curve := some ([] : ToneCurve) } :
          LightroomAdjustments).contrast ≠ none) ∨
       ∃ pts, ({ tone_curve := some ([] : ToneCurve) } :
          LightroomAdjustments).tone_curve = some pts ∧ pts ≠ [])) := by
  intro h
  have h2 := h.mp (by decide)
  rcases h2 with h3 | ⟨pts, hp, hne⟩
  · simp at h3
  · injection hp with h4
    exact hne h4.symm

/-- C2 (amended): `has_adjustments` is true iff one of the fourteen
scalar fields exposure..sharpness is non-null or the primary tone curve
is present (not null) — an empty-but-present curve counts as present. -/
theorem claim2_has_adjustments : ∀ a : LightroomAdjustments,
    has_adjustments a = true ↔
      ((a.exposure ≠ none ∨ a.contrast ≠ none ∨ a.highlights ≠ none ∨
        a.shadows ≠ none ∨ a.whites ≠ none ∨ a.blacks ≠ none ∨
        a.temperature ≠ none ∨ a.tint ≠ none ∨ a.vibrance ≠ none ∨
        a.saturation ≠ none ∨ a.clarity ≠ none ∨ a.dehaze ≠ none ∨
        a.texture ≠ none ∨ a.sharpness ≠ none) ∨ a.tone_curve ≠ none) := by
  intro a
  rw [has_adjustments]
  simp [Option.isSome_iff_ne_none, or_assoc]

/-- C3 (fails): feeding the exporter-produced tag mapping back through the
importer does not reproduce the fields: the scalar comes back as the
formatted string, not the original number, and the tone curve is
discarded because each exported `li` item `"x, y"` fails integer
parsing. -/
theorem claim3_counterexample :
    (extract "img.jpg" (.ok [exportedTagMapping claim3Input])).contrast ≠
        claim3Input.contrast ∧
      (extract "img.jpg" (.ok [exportedTagMapping claim3Input])).tone_curve ≠
        claim3Input.tone_curve := by
  constructor <;> decide

/-- C3 (amended): re-importing the exporter-produced tag mapping yields
each scalar field as the decimal string rendering of the original value
(recoverable for int fields, whose rendering parses back to the original
integer), and the primary tone curve is always discarded to null — the
nonempty curve's `li` items fail parsing, and an empty or absent curve is
not exported at all. -/
theorem claim3_export_import :
    ∀ (p : String) (x : LightroomAdjustments),
    ((extract p (.ok [exportedTagMapping x])).exposure =
        x.exposure.map (fun v => PyVal.str (formatValue v)) ∧
     (extract p (.ok [exportedTagMapping x])).contrast =
        x.contrast.map (fun v => PyVal.str (formatValue v)) ∧
     (extract p (.ok [exportedTagMapping x])).highlights =
        x.highlights.map (fun v => PyVal.str (formatValue v)) ∧
     (extract p (.ok [exportedTagMapping x])).shadows =
        x.shadows.map (fun v => PyVal.str (formatValue v)) ∧
     (extract p (.ok [exportedTagMapping x])).whites =
        x.whites.map (fun v => PyVal.str (formatValue v)) ∧
     (extract p (.ok [exportedTagMapping x])).blacks =
        x.blacks.map (fun v => PyVal.str (formatValue v)) ∧
     (extract p (.ok [exportedTagMapping x])).temperature =
        x.temperature.map (fun v => PyVal.str (formatValue v)) ∧
     (extract p (.ok [exportedTagMapping x])).tint =
        x.tint.map (fun v => PyVal.str (formatValue v)) ∧
     (extract p (.ok [exportedTagMapping x])).vibrance =
        x.vibrance.map (fun v => PyVal.str (formatValue v)) ∧
     (extract p (.ok [exportedTagMapping x])).saturation =
        x.saturation.map (fun v => PyVal.str (formatValue v)) ∧
     (extract p (.ok [exportedTagMapping x])).clarity =
        x.clarity.map (fun v => PyVal.str (formatValue v)) ∧
     (extract p (.ok [exportedTagMapping x])).dehaze =
        x.dehaze.map (fun v => PyVal.str (formatValue v)) ∧
     (extract p (.ok [exportedTagMapping x])).texture =
        x.texture.map (fun v => PyVal.str (formatValue v)) ∧
     (extract p (.ok [exportedTagMapping x])).sharpness =
        x.sharpness.map (fun v => PyVal.str (formatValue v)) ∧
     (extract p (.ok [exportedTagMapping x])).luminance_noise_reduction =
        x.luminance_noise_reduction.map (fun v => PyVal.str (formatValue v)) ∧
     (extract p (.ok [exportedTagMapping x])).color_noise_reduction =
        x.color_noise_reduction.map (fun v => PyVal.str (formatValue v)) ∧
     (extract p (.ok [exportedTagMapping x])).vignette_amount =
        x.vignette_amount.map (fun v => PyVal.str (formatValue v)) ∧
     (extract p (.ok [exportedTagMapping x])).grain_amount =
        x.grain_amount.map (fun v => PyVal.str (formatValue v))) ∧
    (extract p (.ok [exportedTagMapping x])).tone_curve = none ∧
    (∀ n : Int, pyInt (intToChars n) = some n) := by
  intro p x
  refine ⟨⟨?_, ?_, ?_, ?_, ?_, ?_, ?_, ?_, ?_, ?_, ?_, ?_, ?_, ?_, ?_, ?_, ?_, ?_⟩,
    ?_, fun n => pyInt_intToChars n⟩
  · rw [extract_ok_exposure, lookupExported_exposure]
  · rw [extract_ok_contrast, lookupExported_contrast]
  · rw [extract_ok_highlights, lookupExported_highlights]
  · rw [extract_ok_shadows, lookupExported_shadows]
  · rw [extract_ok_whites, lookupExported_whites]
  · rw [extract_ok_blacks, lookupExported_blacks]
  · rw [extract_ok_temperature, lookupExported_temperature]
  · rw [extract_ok_tint, lookupExported_tint]
  · rw [extract_ok_vibrance, lookupExported_vibrance]
  · rw [extract_ok_saturation, lookupExported_saturation]
  · rw [extract_ok_clarity, lookupExported_clarity]
  · rw [extract_ok_dehaze, lookupExported_dehaze]
  · rw [extract_ok_texture, lookupExported_texture]
  · rw [extract_ok_sharpness, lookupExported_sharpness]
  · rw [extract_ok_luminance_noise_reduction, lookupExported_luminance_noise_reduction]
  · rw [extract_ok_color_noise_reduction, lookupExported_color_noise_reduction]
  · rw [extract_ok_vignette_amount, lookupExported_vignette_amount]
  · rw [extract_ok_grain_amount, lookupExported_grain_amount]
  · rw [extract_ok_tone_curve, lookupExported_tone_curve]
    rcases x.tone_curve with _ | (_ | ⟨q, qs⟩)
    · rfl
    · rfl
    · exact parse_exported_curve q qs

/-- C4 (confirmed): every non-null float field is emitted with an
explicit sign (`+` exactly when the value is nonnegative, so `+0.00` for
zero) followed by a nonempty digit run, a point and exactly two decimal
digits; every non-null int field is emitted as a plain decimal string
with a `-` only for negatives and never a forced `+`; and
`Adjustments(exposure=1.5, contrast=-20)` exports attributes
`Exposure2012="+1.50"` and `Contrast2012="-20"`. -/
theorem claim4_numeric_formatting :
    (∀ q : ℚ, ∃ ip d1 d2,
        formatValue (.float q) =
          (if 0 ≤ q then '+' else '-') :: (ip ++ '.' :: [d1, d2]) ∧
        ip ≠ [] ∧ (∀ c ∈ ip, c.isDigit = true) ∧
        d1.isDigit = true ∧ d2.isDigit = true) ∧
    (∀ n : Int,
      formatValue (.int n) = (if n < 0 then ['-'] else []) ++ natToChars n.natAbs ∧
      (∀ c ∈ natToChars n.natAbs, c.isDigit = true)) ∧
    add_adjustments_to_attribs
        { exposure := some (.float (3 / 2)), contrast := some (.int (-20)) } =
      [("Exposure2012", "+1.50".toList), ("Contrast2012", "-20".toList)] := by
  refine ⟨?_, ?_, ?_⟩
  · intro q
    exact pyFormatFloat2_shape q
  · intro n
    constructor
    · rw [show formatValue (.int n) = intToChars n from rfl, intToChars]
      by_cases h : n < 0 <;> simp [h]
    · exact natToChars_digits _
  · rw [show add_adjustments_to_attribs
        { exposure := some (.float (3 / 2)), contrast := some (.int (-20)) } =
        [("Exposure2012", formatValue (.float (3 / 2))),
         ("Contrast2012", formatValue (.int (-20)))] from rfl]
    rw [formatValue_three_halves]
    decide

/-- C5 (fails on the source_file field): on tool failure `extract`
returns an Adjustments whose `source_file` is set to the input path, so
not every field is null. -/
theorem claim5_counterexample :
    (extract "img.jpg" (Except.error ())).source_file ≠ none := by
  decide

/-- C5 (amended): if the tool invocation raises or returns no metadata,
`extract` returns the record with every adjustment field null, empty HSL
maps, and only `source_file` set to the input path — no exception
propagates (the embedding of `extract` is a total function). -/
theorem claim5_tool_failure :
    ∀ (p : String) (r : Except Unit (List (List (String × PyVal)))),
    (r = .error () ∨ r = .ok []) →
    extract p r = { source_file := some p } := by
  intro p r h
  rcases h with rfl | rfl <;> rfl

/-- C5 witness. -/
theorem claim5_witness :
    extract "a.jpg" (Except.error ()) = { source_file := some "a.jpg" } :=
  claim5_tool_failure "a.jpg" _ (Or.inl rfl)

/-- C6 (fails for scalar tags): a malformed scalar tag is not skipped —
its value is copied verbatim into the field, which therefore does not
stay null. -/
theorem claim6_counterexample :
    (extract "img.jpg" (.ok [claim6Data])).contrast ≠ none := by
  decide

/-- C6 (amended): extraction is per-field independent and never fails:
each scalar field (including the per-channel curve attributes) receives
exactly its own tag's value verbatim — malformed or not — so one
malformed tag never disturbs the others, and the tone-curve field is the
codec's parse of its own tag, which discards a malformed value to
null. -/
theorem claim6_fault_isolation :
    ∀ (p : String) (data : List (String × PyVal))
      (rest : List (List (String × PyVal))),
    ((extract p (.ok (data :: rest))).exposure = lookupD data "XMP:Exposure2012" ∧
     (extract p (.ok (data :: rest))).contrast = lookupD data "XMP:Contrast2012" ∧
     (extract p (.ok (data :: rest))).highlights = lookupD data "XMP:Highlights2012" ∧
     (extract p (.ok (data :: rest))).shadows = lookupD data "XMP:Shadows2012" ∧
     (extract p (.ok (data :: rest))).whites = lookupD data "XMP:Whites2012" ∧
     (extract p (.ok (data :: rest))).blacks = lookupD data "XMP:Blacks2012" ∧
     (extract p (.ok (data :: rest))).temperature = lookupD data "XMP:Temperature" ∧
     (extract p (.ok (data :: rest))).tint = lookupD data "XMP:Tint" ∧
     (extract p (.ok (data :: rest))).vibrance = lookupD data "XMP:Vibrance" ∧
     (extract p (.ok (data :: rest))).saturation = lookupD data "XMP:Saturation" ∧
     (extract p (.ok (data :: rest))).clarity = lookupD data "XMP:Clarity2012" ∧
     (extract p (.ok (data :: rest))).dehaze = lookupD data "XMP:Dehaze" ∧
     (extract p (.ok (data :: rest))).texture = lookupD data "XMP:Texture" ∧
     (extract p (.ok (data :: rest))).sharpness = lookupD data "XMP:Sharpness" ∧
     (extract p (.ok (data :: rest))).luminance_noise_reduction =
        lookupD data "XMP:LuminanceSmoothing" ∧
     (extract p (.ok (data :: rest))).color_noise_reduction =
        lookupD data "XMP:ColorNoiseReduction" ∧
     (extract p (.ok (data :: rest))).vignette_amount =
        lookupD data "XMP:PostCropVignetteAmount" ∧
     (extract p (.ok (data :: rest))).grain_amount =
        lookupD data "XMP:GrainAmount" ∧
     (extract p (.ok (data :: rest))).tone_curve_red =
        lookupD data "XMP:ToneCurvePV2012Red" ∧
     (extract p (.ok (data :: rest))).tone_curve_green =
        lookupD data "XMP:ToneCurvePV2012Green" ∧
     (extract p (.ok (data :: rest))).tone_curve_blue =
        lookupD data "XMP:ToneCurvePV2012Blue") ∧
    (extract p (.ok (data :: rest))).tone_curve =
      parse_tone_curve (lookupD data "XMP:ToneCurvePV2012") := by
  intro p data rest
  exact ⟨⟨extract_ok_exposure p data rest, extract_ok_contrast p data rest,
    extract_ok_highlights p data rest, extract_ok_shadows p data rest,
    extract_ok_whites p data rest, extract_ok_blacks p data rest,
    extract_ok_temperature p data rest, extract_ok_tint p data rest,
    extract_ok_vibrance p data rest, extract_ok_saturation p data rest,
    extract_ok_clarity p data rest, extract_ok_dehaze p data rest,
    extract_ok_texture p data rest, extract_ok_sharpness p data rest,
    extract_ok_luminance_noise_reduction p data rest,
    extract_ok_color_noise_reduction p data rest,
    extract_ok_vignette_amount p data rest, extract_ok_grain_amount p data rest,
    extract_ok_tone_curve_red p data rest, extract_ok_tone_curve_green p data rest,
    extract_ok_tone_curve_blue p data rest⟩,
    extract_ok_tone_curve p data rest⟩

/-- C7 (confirmed): decode returns "no curve" on any failing token and on
null/empty input; when all tokens parse, the values are paired in order
(an odd trailing value being dropped, as the `take`-characterisation of
`pairUp` states), and `"0,0,10"` decodes to exactly `[(0,0)]`. -/
theorem claim7_decode_tokenization :
    (∀ s : List Char, (∃ t ∈ splitOnComma s, pyInt (pyStrip t) = none) →
      parse_tone_curve (some (.str s)) = none) ∧
    (parse_tone_curve none = none ∧ parse_tone_curve (some (.str [])) = none) ∧
    (∀ (s : List Char) (values : List Int),
      (splitOnComma s).mapM (fun t => pyInt (pyStrip t)) = some values →
      pairUp values ≠ [] →
      parse_tone_curve (some (.str s)) = some (pairUp values)) ∧
    (∀ values : List Int,
      flattenPairs (pairUp values) = values.take (2 * (values.length / 2))) ∧
    parse_tone_curve (some (.str "0,0,10".toList)) = some [(0, 0)] := by
  refine ⟨parse_str_of_bad_token, ⟨rfl, by decide⟩, ?_, flattenPairs_pairUp, by decide⟩
  intro s values hm hp
  rw [parse_str_of_values s values hm]
  simp [hp]

/-- C7 witness: a failing token discards the curve; parseable tokens are
paired. -/
theorem claim7_witness :
    parse_tone_curve (some (.str ['x'])) = none ∧
    parse_tone_curve (some (.str "4,5".toList)) = some (pairUp [4, 5]) :=
  ⟨claim7_decode_tokenization.1 ['x'] ⟨['x'], by decide, by decide⟩,
   claim7_decode_tokenization.2.2.1 "4,5".toList [4, 5] (by decide) (by decide)⟩

set_option maxRecDepth 10000 in
/-- C8 (fails): the render maps coordinates with Python `int()`
truncation, not rounding: at the curve `[(100,10),(100,250)]` the
implemented render and the claim's round-based render produce different
grids (cell (18,23) is a curve glyph in one and blank in the other). -/
theorem claim8_counterexample :
    render (some claim8Input) ≠ renderRound (some claim8Input) := by
  intro h
  have h1 : cellAt (render (some claim8Input)) 18 23 = some '●' := by decide
  have h2 : cellAt (renderRound (some claim8Input)) 18 23 = some ' ' := by
    rw [renderRound_claim8]
    decide
  rw [h] at h1
  exact absurd (h1.symm.trans h2) (by decide)

/-- C8 (amended): for points with coordinates in [0,255], the render maps
each point via `gx = ⌊x/255*(width-2)⌋ + 1` and
`gy = (height-2) - ⌊y/255*(height-2)⌋` (floor = the `int()` truncation of
the code on these nonnegative values) with width 60 and height 20, and
connects consecutive mapped points with the integer Bresenham
drawing. -/
theorem claim8_coordinate_mapping :
    ∀ pts : ToneCurve,
    (∀ p ∈ pts, 0 ≤ p.1 ∧ p.1 ≤ 255 ∧ 0 ≤ p.2 ∧ p.2 ≤ 255) →
    render (some pts) = renderFloor (some pts) :=
  fun pts h => render_eq_renderFloor pts h

/-- C8 witness. -/
theorem claim8_witness :
    render (some [((0 : Int), (0 : Int)), (255, 255)]) =
      renderFloor (some [((0 : Int), (0 : Int)), (255, 255)]) :=
  claim8_coordinate_mapping _ (by decide)

set_option maxRecDepth 10000 in
/-- C9 (fails as to clamping): out-of-range coordinates are not clamped
to the grid bounds before drawing — out-of-grid cells are simply skipped.
At `[(1000,128),(1100,128)]` the whole segment lies right of the grid:
the code draws nothing, while the clamped render marks cell (9,59). -/
theorem claim9_counterexample :
    render (some claim9Input) ≠ renderClamped (some claim9Input) := by
  intro h
  have h1 : cellAt (render (some claim9Input)) 9 59 = some ' ' := by decide
  have h2 : cellAt (renderClamped (some claim9Input)) 9 59 = some '●' := by decide
  rw [h] at h1
  exact absurd (h1.symm.trans h2) (by decide)

/-- C9 (amended): `render` never fails for any point list whose
coordinates have magnitude at most 2^40 — the domain on which the
embedding of the float pipeline is exact; for astronomically larger
coordinates the pipeline raises OverflowError, so the claim's unbounded
totality is not asserted.  Whenever a grid is produced, every rasterized
cell was bounds-checked, so a cell outside the 20x60 grid is never
written (it stays blank); and an absent or empty curve yields the fixed
placeholder instead of a grid. -/
theorem claim9_render_safety :
    (∀ pts : ToneCurve, (∀ p ∈ pts, |p.1| ≤ 2 ^ 40 ∧ |p.2| ≤ 2 ^ 40) →
      (render (some pts)).isSome = true) ∧
    (∀ (pts : ToneCurve) (g : Grid), render (some pts) = some (.grid g) →
      ∀ ys xs : Int, ¬(0 ≤ ys ∧ ys < 20 ∧ 0 ≤ xs ∧ xs < 60) → g ys xs = ' ') ∧
    render none = some .placeholder ∧
    render (some ([] : ToneCurve)) = some .placeholder := by
  refine ⟨fun pts _ => renderWith_isSome _ _ (some pts), ?_, rfl, rfl⟩
  intro pts g h ys xs hout
  exact renderWith_outside gridX gridY pts g h ys xs hout

/-- C9 witness: the bounded totality at a concrete in-range curve, and
an outside cell of a produced grid left blank. -/
theorem claim9_witness :
    (render (some [((0 : Int), (0 : Int))])).isSome = true ∧
    initGrid 25 70 = ' ' :=
  ⟨claim9_render_safety.1 [((0 : Int), (0 : Int))] (by decide),
   claim9_render_safety.2.1 [((0 : Int), (0 : Int))] initGrid rfl 25 70 (by decide)⟩

/-- C10 (loop termination holds; the claim's totality conclusion fails
in the program): the Bresenham loop of `_draw_line` terminates for every
pair of integer endpoints, including endpoints arbitrarily far outside
the grid — the fuelled embedding, given `dx+dy+1` iterations, always
reaches the endpoint.  The claim's further conclusion that the whole
tone-curve render is total for ANY finite point list is false of the
program: the coordinate normalization `int((x/255)*(width-2))` that runs
before this loop raises OverflowError for astronomically large
coordinates (e.g. `x = 10^309`), an error path outside the loop this
theorem is about. -/
theorem claim10_bresenham_terminates :
    ∀ (g : Grid) (x1 y1 x2 y2 : Int), (draw_line g x1 y1 x2 y2).isSome = true :=
  draw_line_isSome

end Presetify
